import Mathlib

/-!
Shallow embedding of the BinUtils binary codec (src/binary.go).

Modelling conventions:
* Go `[]byte` is `List Nat`, each element standing for one byte (callers of the
  Go API can only put values `< 256` in a `[]byte`; theorems add that bound
  where a claim needs it).
* Go `int` offsets and lengths are `Int`; unsigned machine integers are `Nat`
  and signed ones are `Int`, with explicit `% 2^w` wherever the Go operation
  wraps (conversions such as `byte(x)`, `uint16(x)` and shifts of fixed-width
  operands).
* Go `float32` / `float64` values are modelled by their IEEE-754 bit patterns:
  `math.Float32bits` / `math.Float32frombits` are mutually inverse bit
  reinterpretations, so `WriteFloat` takes and `ReadFloat` returns the 32-bit
  pattern (likewise 64 bits for doubles).  Bit-exact round-tripping of any
  float value, NaN and infinity payloads included, is exactly round-tripping
  of its bit pattern.
* A fallible Go computation yields `GoOut α`; a read primitive also returns
  the offset after the call (Go mutates `*offset` in place), so the pair
  `GoOut α × Int` is (result-or-error, offset-after-call).  `GoOut.panicked`
  marks executions on which the Go code would panic (nil dereference or a
  slice-bounds violation); no claim exercises those paths except through
  hypotheses that exclude them.
* Go strings are byte lists (`string(bs)` and `[]byte(s)` are the identity in
  this byte-level model).
-/

namespace BinUtils

/-- Go error values: `errors.New msg` and `errors.Wrap err msg`. -/
inductive GoErr where
  | new (msg : String)
  | wrap (msg : String) (inner : GoErr)
deriving DecidableEq

/-- Result of a Go computation: a value, a returned error, or a panic. -/
inductive GoOut (α : Type) where
  | ok (val : α)
  | err (e : GoErr)
  | panicked
deriving DecidableEq

/-- The error produced by `Read` when the buffer is too short
(`errors.New("Not enough bytes to read")`). -/
def insufficientBytes : GoErr := GoErr.new ("Not enough bytes to read")

/-- Go `uint16(v)` applied to a signed value. -/
def goUint16 (v : Int) : Nat := (v % 65536).toNat

/-- Go `uint32(v)` applied to a signed value. -/
def goUint32 (v : Int) : Nat := (v % 4294967296).toNat

/-- Go `uint64(v)` applied to a signed value. -/
def goUint64 (v : Int) : Nat := (v % 18446744073709551616).toNat

/-- Go `int16(u)`: reinterpret the low 16 bits as a two's-complement value. -/
def goInt16 (u : Nat) : Int :=
  if u % 65536 < 32768 then (u % 65536 : Nat) else (u % 65536 : Nat) - 65536

/-- Go `int32(u)`: reinterpret the low 32 bits as a two's-complement value. -/
def goInt32 (u : Nat) : Int :=
  if u % 4294967296 < 2147483648 then (u % 4294967296 : Nat)
  else (u % 4294967296 : Nat) - 4294967296

/-- Go `int64(u)`: reinterpret the low 64 bits as a two's-complement value. -/
def goInt64 (u : Nat) : Int :=
  if u % 18446744073709551616 < 9223372036854775808 then
    (u % 18446744073709551616 : Nat)
  else (u % 18446744073709551616 : Nat) - 18446744073709551616

/-- `func Read(buffer *[]byte, offset *int, length int) ([]byte, error)`.
Returns the result together with the offset after the call; the offset is
advanced only on success.  A negative `offset` or `length` surviving the
length check would make the Go slice expression panic. -/
def Read (buffer : List Nat) (offset length : Int) : GoOut (List Nat) × Int :=
  if (buffer.length : Int) < offset + length then
    (GoOut.err insufficientBytes, offset)
  else if offset < 0 ∨ length < 0 then
    (GoOut.panicked, offset)
  else
    (GoOut.ok ((buffer.drop offset.toNat).take length.toNat), offset + length)

/-- `func Write(buffer *[]byte, v byte)`: append one byte. -/
def Write (buffer : List Nat) (v : Nat) : List Nat := buffer ++ [v]

/-- `func WriteByte(buffer *[]byte, byte byte)`. -/
def WriteByte (buffer : List Nat) (b : Nat) : List Nat := Write buffer b

/-- `func ReadByte(buffer *[]byte, offset *int) (byte, error)`. -/
def ReadByte (buffer : List Nat) (offset : Int) : GoOut Nat × Int :=
  match Read buffer offset 1 with
  | (GoOut.ok out, off) => (GoOut.ok (out.getD 0 0), off)
  | (GoOut.err e, off) => (GoOut.err (GoErr.wrap ("Error reading byte") e), off)
  | (GoOut.panicked, off) => (GoOut.panicked, off)

/-- `func WriteUnsignedByte(buffer *[]byte, unsigned uint8)`. -/
def WriteUnsignedByte (buffer : List Nat) (unsigned : Nat) : List Nat :=
  WriteByte buffer unsigned

/-- `func ReadUnsignedByte(buffer *[]byte, offset *int) (byte, error)`. -/
def ReadUnsignedByte (buffer : List Nat) (offset : Int) : GoOut Nat × Int :=
  match Read buffer offset 1 with
  | (GoOut.ok out, off) => (GoOut.ok (out.getD 0 0), off)
  | (GoOut.err e, off) =>
      (GoOut.err (GoErr.wrap ("Error reading unsigned byte") e), off)
  | (GoOut.panicked, off) => (GoOut.panicked, off)

/-- `func WriteBool(buffer *[]byte, bool bool)`. -/
def WriteBool (buffer : List Nat) (b : Bool) : List Nat :=
  if b then WriteByte buffer 0x01 else WriteByte buffer 0x00

/-- `func ReadBool(buffer *[]byte, offset *int) (bool, error)`. -/
def ReadBool (buffer : List Nat) (offset : Int) : GoOut Bool × Int :=
  match Read buffer offset 1 with
  | (GoOut.ok out, off) => (GoOut.ok (decide (out.getD 0 0 ≠ 0x00)), off)
  | (GoOut.err e, off) =>
      (GoOut.err (GoErr.wrap ("Error reading byte for bool") e), off)
  | (GoOut.panicked, off) => (GoOut.panicked, off)

/-- `func WriteShort(buffer *[]byte, signed int16)`: big-endian. -/
def WriteShort (buffer : List Nat) (signed : Int) : List Nat :=
  let v := goUint16 signed
  buffer ++ [(v >>> 8) % 256, v % 256]

/-- `func ReadShort(buffer *[]byte, offset *int) (int16, error)`. -/
def ReadShort (buffer : List Nat) (offset : Int) : GoOut Int × Int :=
  match Read buffer offset 2 with
  | (GoOut.ok b, off) =>
      (GoOut.ok (goInt16 ((b.getD 1 0) ||| (((b.getD 0 0) <<< 8) % 65536))), off)
  | (GoOut.err e, off) =>
      (GoOut.err (GoErr.wrap ("Error reading bytes for short") e), off)
  | (GoOut.panicked, off) => (GoOut.panicked, off)

/-- `func WriteUnsignedShort(buffer *[]byte, v uint16)`: big-endian. -/
def WriteUnsignedShort (buffer : List Nat) (v : Nat) : List Nat :=
  buffer ++ [(v >>> 8) % 256, v % 256]

/-- `func ReadUnsignedShort(buffer *[]byte, offset *int) (uint16, error)`. -/
def ReadUnsignedShort (buffer : List Nat) (offset : Int) : GoOut Nat × Int :=
  match Read buffer offset 2 with
  | (GoOut.ok b, off) =>
      (GoOut.ok ((b.getD 1 0) ||| (((b.getD 0 0) <<< 8) % 65536)), off)
  | (GoOut.err e, off) =>
      (GoOut.err (GoErr.wrap ("Error reading bytes for unsigned short") e), off)
  | (GoOut.panicked, off) => (GoOut.panicked, off)

section Helpers

/-- Bit `j` of `x % 256` is bit `j` of `x` for `j < 8`, and `false` above. -/
theorem testBit_mod256 (x j : Nat) :
    Nat.testBit (x % 256) j = (decide (j < 8) && Nat.testBit x j) := by
  rw [show (256 : Nat) = 2 ^ 8 from rfl, Nat.testBit_mod_two_pow]

/-- One byte slot of a reassembled integer: bit `i` of `((v >>> k) % 256) <<< k`
is bit `i` of `v` exactly when `k ≤ i < k + 8`. -/
theorem testBit_slot (v k i : Nat) :
    Nat.testBit (((v >>> k) % 256) <<< k) i =
      (decide (k ≤ i ∧ i < k + 8) && Nat.testBit v i) := by
  rcases Nat.lt_or_ge i k with h | h
  · simp [Nat.testBit_shiftLeft, Nat.not_le.mpr h, (by omega : ¬(k ≤ i ∧ i < k + 8))]
  · have hik : k + (i - k) = i := Nat.add_sub_cancel' h
    by_cases h2 : i - k < 8
    · simp [Nat.testBit_shiftLeft, testBit_mod256,
        Nat.testBit_shiftRight, h, h2, hik, (by omega : k ≤ i ∧ i < k + 8)]
    · simp [Nat.testBit_shiftLeft, testBit_mod256, h, h2,
        (by omega : ¬(k ≤ i ∧ i < k + 8))]
      exact fun hcon => absurd hcon (by omega)

/-- Reassembling the two bytes of a 16-bit value gives the value back. -/
theorem assemble16 (v : Nat) (hv : v < 2 ^ 16) :
    (v % 256) ||| (((v >>> 8) % 256) <<< 8) = v := by
  have h0 : (v % 256) = ((v >>> 0) % 256) <<< 0 := by simp
  apply Nat.eq_of_testBit_eq
  intro i
  rw [h0]
  simp only [Nat.testBit_or, testBit_slot]
  rcases Nat.lt_or_ge i 16 with h | h
  · cases hb : v.testBit i
    · simp [hb]
    · simp [hb]
      omega
  · have : v.testBit i = false :=
      Nat.testBit_lt_two_pow
        (lt_of_lt_of_le hv (Nat.pow_le_pow_right (by norm_num) h))
    simp [this]

/-- A byte shifted into a 32-bit slot needs no 32-bit wrap. -/
theorem mod256_shl_mod (e k w : Nat) (h : 256 * 2 ^ k ≤ w) :
    ((e % 256) <<< k) % w = (e % 256) <<< k := by
  rw [Nat.shiftLeft_eq]
  exact Nat.mod_eq_of_lt (lt_of_lt_of_le
    (Nat.mul_lt_mul_of_lt_of_le (Nat.mod_lt e (by norm_num)) (Nat.le_refl _)
      (Nat.pos_pow_of_pos k (by norm_num))) h)

theorem shl8_16 (e : Nat) : ((e % 256) <<< 8) % 65536 = (e % 256) <<< 8 :=
  mod256_shl_mod e 8 65536 (by norm_num)

/-- Reading back the bytes appended at the end of a buffer returns exactly
those bytes. -/
theorem Read_append (buffer extra : List Nat) (n : Int)
    (hn : (extra.length : Int) = n) :
    Read (buffer ++ extra) (buffer.length : Int) n
      = (GoOut.ok extra, (buffer.length : Int) + n) := by
  subst hn
  unfold Read
  rw [if_neg (by simp), if_neg (by omega)]
  simp [List.drop_left, List.take_length]

/-- `goInt16` undoes `goUint16` on representable 16-bit signed values. -/
theorem goInt16_goUint16 (v : Int) (h1 : -32768 ≤ v) (h2 : v < 32768) :
    goInt16 (goUint16 v) = v := by
  unfold goInt16 goUint16
  omega

theorem goUint16_lt (v : Int) : goUint16 v < 65536 := by
  unfold goUint16; omega

/-- Reassembling the four bytes of a 32-bit value gives the value back. -/
theorem assemble32 (v : Nat) (hv : v < 2 ^ 32) :
    (v % 256) ||| (((v >>> 8) % 256) <<< 8) ||| (((v >>> 16) % 256) <<< 16) |||
      (((v >>> 24) % 256) <<< 24) = v := by
  have h0 : (v % 256) = ((v >>> 0) % 256) <<< 0 := by simp
  apply Nat.eq_of_testBit_eq
  intro i
  rw [h0]
  simp only [Nat.testBit_or, testBit_slot]
  rcases Nat.lt_or_ge i 32 with h | h
  · cases hb : v.testBit i
    · simp [hb]
    · simp [hb]
      omega
  · have : v.testBit i = false :=
      Nat.testBit_lt_two_pow
        (lt_of_lt_of_le hv (Nat.pow_le_pow_right (by norm_num) h))
    simp [this]

/-- Reassembling the eight bytes of a 64-bit value gives the value back. -/
theorem assemble64 (v : Nat) (hv : v < 2 ^ 64) :
    (v % 256) ||| (((v >>> 8) % 256) <<< 8) ||| (((v >>> 16) % 256) <<< 16) |||
      (((v >>> 24) % 256) <<< 24) ||| (((v >>> 32) % 256) <<< 32) |||
      (((v >>> 40) % 256) <<< 40) ||| (((v >>> 48) % 256) <<< 48) |||
      (((v >>> 56) % 256) <<< 56) = v := by
  have h0 : (v % 256) = ((v >>> 0) % 256) <<< 0 := by simp
  apply Nat.eq_of_testBit_eq
  intro i
  rw [h0]
  simp only [Nat.testBit_or, testBit_slot]
  rcases Nat.lt_or_ge i 64 with h | h
  · cases hb : v.testBit i
    · simp [hb]
    · simp [hb]
      omega
  · have : v.testBit i = false :=
      Nat.testBit_lt_two_pow
        (lt_of_lt_of_le hv (Nat.pow_le_pow_right (by norm_num) h))
    simp [this]

theorem shl8_32 (e : Nat) : ((e % 256) <<< 8) % 4294967296 = (e % 256) <<< 8 :=
  mod256_shl_mod e 8 4294967296 (by norm_num)

theorem shl16_32 (e : Nat) : ((e % 256) <<< 16) % 4294967296 = (e % 256) <<< 16 :=
  mod256_shl_mod e 16 4294967296 (by norm_num)

theorem shl24_32 (e : Nat) : ((e % 256) <<< 24) % 4294967296 = (e % 256) <<< 24 :=
  mod256_shl_mod e 24 4294967296 (by norm_num)

theorem shl8_64 (e : Nat) :
    ((e % 256) <<< 8) % 18446744073709551616 = (e % 256) <<< 8 :=
  mod256_shl_mod e 8 18446744073709551616 (by norm_num)

theorem shl16_64 (e : Nat) :
    ((e % 256) <<< 16) % 18446744073709551616 = (e % 256) <<< 16 :=
  mod256_shl_mod e 16 18446744073709551616 (by norm_num)

theorem shl24_64 (e : Nat) :
    ((e % 256) <<< 24) % 18446744073709551616 = (e % 256) <<< 24 :=
  mod256_shl_mod e 24 18446744073709551616 (by norm_num)

theorem shl32_64 (e : Nat) :
    ((e % 256) <<< 32) % 18446744073709551616 = (e % 256) <<< 32 :=
  mod256_shl_mod e 32 18446744073709551616 (by norm_num)

theorem shl40_64 (e : Nat) :
    ((e % 256) <<< 40) % 18446744073709551616 = (e % 256) <<< 40 :=
  mod256_shl_mod e 40 18446744073709551616 (by norm_num)

theorem shl48_64 (e : Nat) :
    ((e % 256) <<< 48) % 18446744073709551616 = (e % 256) <<< 48 :=
  mod256_shl_mod e 48 18446744073709551616 (by norm_num)

theorem shl56_64 (e : Nat) :
    ((e % 256) <<< 56) % 18446744073709551616 = (e % 256) <<< 56 :=
  mod256_shl_mod e 56 18446744073709551616 (by norm_num)

/-- `goInt32` undoes `goUint32` on representable 32-bit signed values. -/
theorem goInt32_goUint32 (v : Int) (h1 : -2147483648 ≤ v) (h2 : v < 2147483648) :
    goInt32 (goUint32 v) = v := by
  unfold goInt32 goUint32
  omega

/-- `goInt64` undoes `goUint64` on representable 64-bit signed values. -/
theorem goInt64_goUint64 (v : Int) (h1 : -9223372036854775808 ≤ v)
    (h2 : v < 9223372036854775808) :
    goInt64 (goUint64 v) = v := by
  unfold goInt64 goUint64
  omega

theorem goUint32_lt (v : Int) : goUint32 v < 4294967296 := by
  unfold goUint32; omega

theorem goUint64_lt (v : Int) : goUint64 v < 18446744073709551616 := by
  unfold goUint64; omega

end Helpers

/-- `func WriteInt(buffer *[]byte, int int32)`: big-endian. -/
def WriteInt (buffer : List Nat) (int : Int) : List Nat :=
  let v := goUint32 int
  buffer ++ [(v >>> 24) % 256, (v >>> 16) % 256, (v >>> 8) % 256, v % 256]

/-- `func ReadInt(buffer *[]byte, offset *int) (int32, error)`. -/
def ReadInt (buffer : List Nat) (offset : Int) : GoOut Int × Int :=
  match Read buffer offset 4 with
  | (GoOut.ok b, off) =>
      (GoOut.ok (goInt32 ((b.getD 3 0) ||| (((b.getD 2 0) <<< 8) % 4294967296) |||
        (((b.getD 1 0) <<< 16) % 4294967296) |||
        (((b.getD 0 0) <<< 24) % 4294967296))), off)
  | (GoOut.err e, off) =>
      (GoOut.err (GoErr.wrap ("Error reading bytes for int") e), off)
  | (GoOut.panicked, off) => (GoOut.panicked, off)

/-- `func WriteUnsignedInt(buffer *[]byte, v uint32)`: big-endian. -/
def WriteUnsignedInt (buffer : List Nat) (v : Nat) : List Nat :=
  buffer ++ [(v >>> 24) % 256, (v >>> 16) % 256, (v >>> 8) % 256, v % 256]

/-- `func ReadUnsignedInt(buffer *[]byte, offset *int) (uint32, error)`. -/
def ReadUnsignedInt (buffer : List Nat) (offset : Int) : GoOut Nat × Int :=
  match Read buffer offset 4 with
  | (GoOut.ok b, off) =>
      (GoOut.ok ((b.getD 3 0) ||| (((b.getD 2 0) <<< 8) % 4294967296) |||
        (((b.getD 1 0) <<< 16) % 4294967296) |||
        (((b.getD 0 0) <<< 24) % 4294967296)), off)
  | (GoOut.err e, off) =>
      (GoOut.err (GoErr.wrap ("Error reading bytes for unsigned int") e), off)
  | (GoOut.panicked, off) => (GoOut.panicked, off)

/-- `func WriteLong(buffer *[]byte, long int64)`: big-endian. -/
def WriteLong (buffer : List Nat) (long : Int) : List Nat :=
  let v := goUint64 long
  buffer ++ [(v >>> 56) % 256, (v >>> 48) % 256, (v >>> 40) % 256,
    (v >>> 32) % 256, (v >>> 24) % 256, (v >>> 16) % 256, (v >>> 8) % 256,
    v % 256]

/-- `func ReadLong(buffer *[]byte, offset *int) (int64, error)`. -/
def ReadLong (buffer : List Nat) (offset : Int) : GoOut Int × Int :=
  match Read buffer offset 8 with
  | (GoOut.ok b, off) =>
      (GoOut.ok (goInt64 ((b.getD 7 0) |||
        (((b.getD 6 0) <<< 8) % 18446744073709551616) |||
        (((b.getD 5 0) <<< 16) % 18446744073709551616) |||
        (((b.getD 4 0) <<< 24) % 18446744073709551616) |||
        (((b.getD 3 0) <<< 32) % 18446744073709551616) |||
        (((b.getD 2 0) <<< 40) % 18446744073709551616) |||
        (((b.getD 1 0) <<< 48) % 18446744073709551616) |||
        (((b.getD 0 0) <<< 56) % 18446744073709551616))), off)
  | (GoOut.err e, off) =>
      (GoOut.err (GoErr.wrap ("Error reading bytes for long") e), off)
  | (GoOut.panicked, off) => (GoOut.panicked, off)

/-- `func WriteUnsignedLong(buffer *[]byte, v uint64)`: big-endian. -/
def WriteUnsignedLong (buffer : List Nat) (v : Nat) : List Nat :=
  buffer ++ [(v >>> 56) % 256, (v >>> 48) % 256, (v >>> 40) % 256,
    (v >>> 32) % 256, (v >>> 24) % 256, (v >>> 16) % 256, (v >>> 8) % 256,
    v % 256]

/-- `func ReadUnsignedLong(buffer *[]byte, offset *int) (uint64, error)`. -/
def ReadUnsignedLong (buffer : List Nat) (offset : Int) : GoOut Nat × Int :=
  match Read buffer offset 8 with
  | (GoOut.ok b, off) =>
      (GoOut.ok ((b.getD 7 0) |||
        (((b.getD 6 0) <<< 8) % 18446744073709551616) |||
        (((b.getD 5 0) <<< 16) % 18446744073709551616) |||
        (((b.getD 4 0) <<< 24) % 18446744073709551616) |||
        (((b.getD 3 0) <<< 32) % 18446744073709551616) |||
        (((b.getD 2 0) <<< 40) % 18446744073709551616) |||
        (((b.getD 1 0) <<< 48) % 18446744073709551616) |||
        (((b.getD 0 0) <<< 56) % 18446744073709551616)), off)
  | (GoOut.err e, off) =>
      (GoOut.err (GoErr.wrap ("Error reading bytes for unsigned long") e), off)
  | (GoOut.panicked, off) => (GoOut.panicked, off)

/-- `func WriteFloat(buffer *[]byte, float float32)`: big-endian; `float` is
modelled by its IEEE-754 bit pattern (`math.Float32bits(float)` in the Go
source computes exactly this pattern before the bytes are laid out). -/
def WriteFloat (buffer : List Nat) (floatBits : Nat) : List Nat :=
  let v := floatBits
  buffer ++ [(v >>> 24) % 256, (v >>> 16) % 256, (v >>> 8) % 256, v % 256]

/-- `func ReadFloat(buffer *[]byte, offset *int) (float32, error)`: returns
the IEEE-754 bit pattern that `math.Float32frombits` reinterprets. -/
def ReadFloat (buffer : List Nat) (offset : Int) : GoOut Nat × Int :=
  match Read buffer offset 4 with
  | (GoOut.ok b, off) =>
      (GoOut.ok ((b.getD 3 0) ||| (((b.getD 2 0) <<< 8) % 4294967296) |||
        (((b.getD 1 0) <<< 16) % 4294967296) |||
        (((b.getD 0 0) <<< 24) % 4294967296)), off)
  | (GoOut.err e, off) =>
      (GoOut.err (GoErr.wrap ("Error reading bytes for float") e), off)
  | (GoOut.panicked, off) => (GoOut.panicked, off)

/-- `func WriteDouble(buffer *[]byte, double float64)`: big-endian; `double`
is modelled by its IEEE-754 bit pattern (`math.Float64bits`). -/
def WriteDouble (buffer : List Nat) (doubleBits : Nat) : List Nat :=
  let v := doubleBits
  buffer ++ [(v >>> 56) % 256, (v >>> 48) % 256, (v >>> 40) % 256,
    (v >>> 32) % 256, (v >>> 24) % 256, (v >>> 16) % 256, (v >>> 8) % 256,
    v % 256]

/-- `func ReadDouble(buffer *[]byte, offset *int) (float64, error)`: returns
the IEEE-754 bit pattern that `math.Float64frombits` reinterprets. -/
def ReadDouble (buffer : List Nat) (offset : Int) : GoOut Nat × Int :=
  match Read buffer offset 8 with
  | (GoOut.ok b, off) =>
      (GoOut.ok ((b.getD 7 0) |||
        (((b.getD 6 0) <<< 8) % 18446744073709551616) |||
        (((b.getD 5 0) <<< 16) % 18446744073709551616) |||
        (((b.getD 4 0) <<< 24) % 18446744073709551616) |||
        (((b.getD 3 0) <<< 32) % 18446744073709551616) |||
        (((b.getD 2 0) <<< 40) % 18446744073709551616) |||
        (((b.getD 1 0) <<< 48) % 18446744073709551616) |||
        (((b.getD 0 0) <<< 56) % 18446744073709551616)), off)
  | (GoOut.err e, off) =>
      (GoOut.err (GoErr.wrap ("Error reading bytes for double") e), off)
  | (GoOut.panicked, off) => (GoOut.panicked, off)

/-- `func WriteLittleShort(buffer *[]byte, signed int16)`: little-endian. -/
def WriteLittleShort (buffer : List Nat) (signed : Int) : List Nat :=
  let v := goUint16 signed
  buffer ++ [v % 256, (v >>> 8) % 256]

/-- `func ReadLittleShort(buffer *[]byte, offset *int) (int16, error)`. -/
def ReadLittleShort (buffer : List Nat) (offset : Int) : GoOut Int × Int :=
  match Read buffer offset 2 with
  | (GoOut.ok b, off) =>
      (GoOut.ok (goInt16 ((b.getD 0 0) ||| (((b.getD 1 0) <<< 8) % 65536))), off)
  | (GoOut.err e, off) =>
      (GoOut.err (GoErr.wrap ("Error reading bytes for little endian short") e), off)
  | (GoOut.panicked, off) => (GoOut.panicked, off)

/-- `func WriteLittleUnsignedShort(buffer *[]byte, v uint16)`: little-endian. -/
def WriteLittleUnsignedShort (buffer : List Nat) (v : Nat) : List Nat :=
  buffer ++ [v % 256, (v >>> 8) % 256]

/-- `func ReadLittleUnsignedShort(buffer *[]byte, offset *int) (uint16, error)`. -/
def ReadLittleUnsignedShort (buffer : List Nat) (offset : Int) : GoOut Nat × Int :=
  match Read buffer offset 2 with
  | (GoOut.ok b, off) =>
      (GoOut.ok ((b.getD 0 0) ||| (((b.getD 1 0) <<< 8) % 65536)), off)
  | (GoOut.err e, off) =>
      (GoOut.err
        (GoErr.wrap ("Error reading bytes for unsigned little endian short") e), off)
  | (GoOut.panicked, off) => (GoOut.panicked, off)

/-- `func WriteLittleInt(buffer *[]byte, int int32)`: little-endian. -/
def WriteLittleInt (buffer : List Nat) (int : Int) : List Nat :=
  let v := goUint32 int
  buffer ++ [v % 256, (v >>> 8) % 256, (v >>> 16) % 256, (v >>> 24) % 256]

/-- `func ReadLittleInt(buffer *[]byte, offset *int) (int32, error)`. -/
def ReadLittleInt (buffer : List Nat) (offset : Int) : GoOut Int × Int :=
  match Read buffer offset 4 with
  | (GoOut.ok b, off) =>
      (GoOut.ok (goInt32 ((b.getD 0 0) ||| (((b.getD 1 0) <<< 8) % 4294967296) |||
        (((b.getD 2 0) <<< 16) % 4294967296) |||
        (((b.getD 3 0) <<< 24) % 4294967296))), off)
  | (GoOut.err e, off) =>
      (GoOut.err (GoErr.wrap ("Error reading bytes for little endian int") e), off)
  | (GoOut.panicked, off) => (GoOut.panicked, off)

/-- `func WriteLittleUnsignedInt(buffer *[]byte, v uint32)`: little-endian. -/
def WriteLittleUnsignedInt (buffer : List Nat) (v : Nat) : List Nat :=
  buffer ++ [v % 256, (v >>> 8) % 256, (v >>> 16) % 256, (v >>> 24) % 256]

/-- `func ReadLittleUnsignedInt(buffer *[]byte, offset *int) (uint32, error)`. -/
def ReadLittleUnsignedInt (buffer : List Nat) (offset : Int) : GoOut Nat × Int :=
  match Read buffer offset 4 with
  | (GoOut.ok b, off) =>
      (GoOut.ok ((b.getD 0 0) ||| (((b.getD 1 0) <<< 8) % 4294967296) |||
        (((b.getD 2 0) <<< 16) % 4294967296) |||
        (((b.getD 3 0) <<< 24) % 4294967296)), off)
  | (GoOut.err e, off) =>
      (GoOut.err
        (GoErr.wrap ("Error reading bytes for unsigned little endian int") e), off)
  | (GoOut.panicked, off) => (GoOut.panicked, off)

/-- `func WriteLittleLong(buffer *[]byte, long int64)`: little-endian. -/
def WriteLittleLong (buffer : List Nat) (long : Int) : List Nat :=
  let v := goUint64 long
  buffer ++ [v % 256, (v >>> 8) % 256, (v >>> 16) % 256, (v >>> 24) % 256,
    (v >>> 32) % 256, (v >>> 40) % 256, (v >>> 48) % 256, (v >>> 56) % 256]

/-- `func ReadLittleLong(buffer *[]byte, offset *int) (int64, error)`. -/
def ReadLittleLong (buffer : List Nat) (offset : Int) : GoOut Int × Int :=
  match Read buffer offset 8 with
  | (GoOut.ok b, off) =>
      (GoOut.ok (goInt64 ((b.getD 0 0) |||
        (((b.getD 1 0) <<< 8) % 18446744073709551616) |||
        (((b.getD 2 0) <<< 16) % 18446744073709551616) |||
        (((b.getD 3 0) <<< 24) % 18446744073709551616) |||
        (((b.getD 4 0) <<< 32) % 18446744073709551616) |||
        (((b.getD 5 0) <<< 40) % 18446744073709551616) |||
        (((b.getD 6 0) <<< 48) % 18446744073709551616) |||
        (((b.getD 7 0) <<< 56) % 18446744073709551616))), off)
  | (GoOut.err e, off) =>
      (GoOut.err (GoErr.wrap ("Error reading bytes for little endian long") e), off)
  | (GoOut.panicked, off) => (GoOut.panicked, off)

/-- `func WriteLittleUnsignedLong(buffer *[]byte, v uint64)`: little-endian. -/
def WriteLittleUnsignedLong (buffer : List Nat) (v : Nat) : List Nat :=
  buffer ++ [v % 256, (v >>> 8) % 256, (v >>> 16) % 256, (v >>> 24) % 256,
    (v >>> 32) % 256, (v >>> 40) % 256, (v >>> 48) % 256, (v >>> 56) % 256]

/-- `func ReadLittleUnsignedLong(buffer *[]byte, offset *int) (uint64, error)`. -/
def ReadLittleUnsignedLong (buffer : List Nat) (offset : Int) : GoOut Nat × Int :=
  match Read buffer offset 8 with
  | (GoOut.ok b, off) =>
      (GoOut.ok ((b.getD 0 0) |||
        (((b.getD 1 0) <<< 8) % 18446744073709551616) |||
        (((b.getD 2 0) <<< 16) % 18446744073709551616) |||
        (((b.getD 3 0) <<< 24) % 18446744073709551616) |||
        (((b.getD 4 0) <<< 32) % 18446744073709551616) |||
        (((b.getD 5 0) <<< 40) % 18446744073709551616) |||
        (((b.getD 6 0) <<< 48) % 18446744073709551616) |||
        (((b.getD 7 0) <<< 56) % 18446744073709551616)), off)
  | (GoOut.err e, off) =>
      (GoOut.err
        (GoErr.wrap ("Error reading bytes for unsigned little endian long") e), off)
  | (GoOut.panicked, off) => (GoOut.panicked, off)

/-- `func WriteLittleFloat(buffer *[]byte, float float32)`: little-endian,
on the IEEE-754 bit pattern. -/
def WriteLittleFloat (buffer : List Nat) (floatBits : Nat) : List Nat :=
  let v := floatBits
  buffer ++ [v % 256, (v >>> 8) % 256, (v >>> 16) % 256, (v >>> 24) % 256]

/-- `func ReadLittleFloat(buffer *[]byte, offset *int) (float32, error)`. -/
def ReadLittleFloat (buffer : List Nat) (offset : Int) : GoOut Nat × Int :=
  match Read buffer offset 4 with
  | (GoOut.ok b, off) =>
      (GoOut.ok ((b.getD 0 0) ||| (((b.getD 1 0) <<< 8) % 4294967296) |||
        (((b.getD 2 0) <<< 16) % 4294967296) |||
        (((b.getD 3 0) <<< 24) % 4294967296)), off)
  | (GoOut.err e, off) =>
      (GoOut.err (GoErr.wrap ("Error reading bytes for little endian float") e), off)
  | (GoOut.panicked, off) => (GoOut.panicked, off)

/-- `func WriteLittleDouble(buffer *[]byte, double float64)`: little-endian,
on the IEEE-754 bit pattern. -/
def WriteLittleDouble (buffer : List Nat) (doubleBits : Nat) : List Nat :=
  let v := doubleBits
  buffer ++ [v % 256, (v >>> 8) % 256, (v >>> 16) % 256, (v >>> 24) % 256,
    (v >>> 32) % 256, (v >>> 40) % 256, (v >>> 48) % 256, (v >>> 56) % 256]

/-- `func ReadLittleDouble(buffer *[]byte, offset *int) (float64, error)`. -/
def ReadLittleDouble (buffer : List Nat) (offset : Int) : GoOut Nat × Int :=
  match Read buffer offset 8 with
  | (GoOut.ok b, off) =>
      (GoOut.ok ((b.getD 0 0) |||
        (((b.getD 1 0) <<< 8) % 18446744073709551616) |||
        (((b.getD 2 0) <<< 16) % 18446744073709551616) |||
        (((b.getD 3 0) <<< 24) % 18446744073709551616) |||
        (((b.getD 4 0) <<< 32) % 18446744073709551616) |||
        (((b.getD 5 0) <<< 40) % 18446744073709551616) |||
        (((b.getD 6 0) <<< 48) % 18446744073709551616) |||
        (((b.getD 7 0) <<< 56) % 18446744073709551616)), off)
  | (GoOut.err e, off) =>
      (GoOut.err
        (GoErr.wrap ("Error reading bytes for little endian double") e), off)
  | (GoOut.panicked, off) => (GoOut.panicked, off)

/-- `func ReadBigTriad(buffer *[]byte, offset *int) (uint32, error)`: the
high nibble of the first (most significant) byte is masked with `0x0F`. -/
def ReadBigTriad (buffer : List Nat) (offset : Int) : GoOut Nat × Int :=
  match Read buffer offset 3 with
  | (GoOut.ok b, off) =>
      (GoOut.ok (((b.getD 2 0) &&& 0xFF) |||
        ((((b.getD 1 0) &&& 0xFF) <<< 8) % 4294967296) |||
        ((((b.getD 0 0) &&& 0x0F) <<< 16) % 4294967296)), off)
  | (GoOut.err e, off) =>
      (GoOut.err (GoErr.wrap ("Error reading bytes for big endian triad") e), off)
  | (GoOut.panicked, off) => (GoOut.panicked, off)

/-- `func WriteLittleTriad(buffer *[]byte, uint uint32)`: three `Write` calls,
`byte(uint&0xFF)`, `byte(uint>>8)&0xFF`, `byte(uint>>16)&0xFF`. -/
def WriteLittleTriad (buffer : List Nat) (uint : Nat) : List Nat :=
  Write (Write (Write buffer ((uint &&& 0xFF) % 256))
    (((uint >>> 8) % 256) &&& 0xFF)) (((uint >>> 16) % 256) &&& 0xFF)

/-- `func ReadLittleTriad(buffer *[]byte, offset *int) (uint32, error)`: the
high nibble of the third (most significant) byte is masked with `0x0F`. -/
def ReadLittleTriad (buffer : List Nat) (offset : Int) : GoOut Nat × Int :=
  match Read buffer offset 3 with
  | (GoOut.ok b, off) =>
      (GoOut.ok (((b.getD 0 0) &&& 0xFF) |||
        ((((b.getD 1 0) &&& 0xFF) <<< 8) % 4294967296) |||
        ((((b.getD 2 0) &&& 0x0F) <<< 16) % 4294967296)), off)
  | (GoOut.err e, off) =>
      (GoOut.err (GoErr.wrap ("Error reading bytes for little endian triad") e), off)
  | (GoOut.panicked, off) => (GoOut.panicked, off)

/-- `func WriteBigTriad(buffer *[]byte, uint uint32)`: three `Write` calls,
`byte(uint>>16)&0xFF`, `byte(uint>>8)&0xFF`, `byte(uint&0xFF)`; no nibble
mask anywhere. -/
def WriteBigTriad (buffer : List Nat) (uint : Nat) : List Nat :=
  Write (Write (Write buffer (((uint >>> 16) % 256) &&& 0xFF))
    (((uint >>> 8) % 256) &&& 0xFF)) ((uint &&& 0xFF) % 256)

/-- `func toZigZag32(n int32) uint32 = uint32((n << 1) ^ (n >> 31))`.
With `u` the unsigned pattern of `n`: `n << 1` has pattern `(u <<< 1) % 2^32`
and the arithmetic shift `n >> 31` has pattern `(u >>> 31) * (2^32 - 1)`
(all-ones exactly when the sign bit is set); `^` acts on the patterns. -/
def toZigZag32 (n : Int) : Nat :=
  ((goUint32 n <<< 1) % 4294967296) ^^^ ((goUint32 n >>> 31) * 4294967295)

/-- `func fromZigZag32(n uint32) int32 = int32(n>>1) ^ -int32(n&1)`.
`-int32(n&1)` has unsigned pattern `(n &&& 1) * (2^32 - 1)`; xor of two
`int32` values is the xor of their patterns, reinterpreted by `goInt32`. -/
def fromZigZag32 (n : Nat) : Int :=
  goInt32 ((n >>> 1) ^^^ ((n &&& 1) * 4294967295))

/-- `func toZigZag64(n int64) uint64 = uint64((n << 1) ^ (n >> 63))`. -/
def toZigZag64 (n : Int) : Nat :=
  ((goUint64 n <<< 1) % 18446744073709551616) ^^^
    ((goUint64 n >>> 63) * 18446744073709551615)

/-- `func fromZigZag64(n uint64) int64 = int64(n>>1) ^ -int64(n&1)`. -/
def fromZigZag64 (n : Nat) : Int :=
  goInt64 ((n >>> 1) ^^^ ((n &&& 1) * 18446744073709551615))

/-- The loop of `WriteUnsignedVarInt`, which runs
`for value & 0xFFFFFF80 != 0 { Write(byte(value&0x7F)|0x80); value >>= 7 }`
and then writes `byte(value)`.  The loop is bounded structurally by `fuel`;
a 32-bit `value` strictly shrinks under `>>> 7`, so the entry fuel of 5 is
never exhausted (the fuel-0 equation is unreachable for `value < 2^32`). -/
def writeUnsignedVarIntLoop : Nat → Nat → List Nat
  | value, 0 => [value % 256]
  | value, fuel + 1 =>
    if value &&& 4294967168 ≠ 0 then
      (((value &&& 0x7F) ||| 0x80) % 256) :: writeUnsignedVarIntLoop (value >>> 7) fuel
    else [value % 256]

/-- `func WriteUnsignedVarInt(buffer *[]byte, value uint32)`. -/
def WriteUnsignedVarInt (buffer : List Nat) (value : Nat) : List Nat :=
  buffer ++ writeUnsignedVarIntLoop value 5

/-- The loop of `WriteUnsignedVarLong`, identical to the 32-bit form with the
mask `uint64(-128)`; entry fuel 10 is never exhausted for `value < 2^64`. -/
def writeUnsignedVarLongLoop : Nat → Nat → List Nat
  | value, 0 => [value % 256]
  | value, fuel + 1 =>
    if value &&& 18446744073709551488 ≠ 0 then
      (((value &&& 0x7F) ||| 0x80) % 256) :: writeUnsignedVarLongLoop (value >>> 7) fuel
    else [value % 256]

/-- `func WriteUnsignedVarLong(buffer *[]byte, value uint64)`. -/
def WriteUnsignedVarLong (buffer : List Nat) (value : Nat) : List Nat :=
  buffer ++ writeUnsignedVarLongLoop value 10

/-- The do-while loop of `ReadUnsignedVarInt`.  The Go counter `j` (number of
groups already consumed) corresponds to `5 - fuel` in the `fuel + 1` case:
the loop is entered with `j = 0`/fuel 6, and the in-loop test `j > 5` (after
`j++`) is exactly `fuel = 0` there.  The top-level fuel-0 equation would mean
entering an iteration with `j = 6`, which the in-loop test makes unreachable;
it returns the same error.  `if b0 < 0` is the (dead) Go check on a byte. -/
def readUnsignedVarIntLoop (buffer : List Nat) : Int → Nat → Nat → GoOut Nat × Int
  | offset, _result, 0 => (GoOut.err (GoErr.new ("Unsigned varint too big")), offset)
  | offset, result, fuel + 1 =>
    match Read buffer offset 1 with
    | (GoOut.ok bs, off) =>
      let b0 := bs.getD 0 0
      if b0 < 0 then
        (GoOut.err (GoErr.new ("not enough bytes for unsigned varint")), off)
      else
        let result2 := result ||| (((b0 &&& 0x7f) <<< ((5 - fuel) * 7)) % 4294967296)
        if fuel = 0 then
          (GoOut.err (GoErr.new ("Unsigned varint too big")), off)
        else if b0 &&& 0x80 ≠ 0 then
          readUnsignedVarIntLoop buffer off result2 fuel
        else (GoOut.ok result2, off)
    | (GoOut.err e, off) =>
      (GoOut.err (GoErr.wrap ("Couldn't get next byte of unsigned varint") e), off)
    | (GoOut.panicked, off) => (GoOut.panicked, off)

/-- `func ReadUnsignedVarInt(buffer *[]byte, offset *int) (uint32, error)`. -/
def ReadUnsignedVarInt (buffer : List Nat) (offset : Int) : GoOut Nat × Int :=
  readUnsignedVarIntLoop buffer offset 0 6

/-- The do-while loop of `ReadUnsignedVarLong`; `j = 10 - fuel` in the
`fuel + 1` case, entered with `j = 0`/fuel 11, and `j > 10` is `fuel = 0`. -/
def readUnsignedVarLongLoop (buffer : List Nat) : Int → Nat → Nat → GoOut Nat × Int
  | offset, _result, 0 => (GoOut.err (GoErr.new ("Unsigned var long too big")), offset)
  | offset, result, fuel + 1 =>
    match Read buffer offset 1 with
    | (GoOut.ok bs, off) =>
      let b0 := bs.getD 0 0
      if b0 < 0 then
        (GoOut.err (GoErr.new ("Not enough bytes for unsigned var long")), off)
      else
        let result2 :=
          result ||| (((b0 &&& 0x7f) <<< ((10 - fuel) * 7)) % 18446744073709551616)
        if fuel = 0 then
          (GoOut.err (GoErr.new ("Unsigned var long too big")), off)
        else if b0 &&& 0x80 ≠ 0 then
          readUnsignedVarLongLoop buffer off result2 fuel
        else (GoOut.ok result2, off)
    | (GoOut.err e, off) =>
      (GoOut.err (GoErr.wrap ("Error reading unsigned var long") e), off)
    | (GoOut.panicked, off) => (GoOut.panicked, off)

/-- `func ReadUnsignedVarLong(buffer *[]byte, offset *int) (uint64, error)`. -/
def ReadUnsignedVarLong (buffer : List Nat) (offset : Int) : GoOut Nat × Int :=
  readUnsignedVarLongLoop buffer offset 0 11

/-- `func WriteVarInt(buffer *[]byte, value int32)`. -/
def WriteVarInt (buffer : List Nat) (value : Int) : List Nat :=
  WriteUnsignedVarInt buffer (toZigZag32 value)

/-- `func ReadVarInt(buffer *[]byte, offset *int) (int32, error)`. -/
def ReadVarInt (buffer : List Nat) (offset : Int) : GoOut Int × Int :=
  match ReadUnsignedVarInt buffer offset with
  | (GoOut.ok u, off) => (GoOut.ok (fromZigZag32 u), off)
  | (GoOut.err e, off) => (GoOut.err (GoErr.wrap ("Error reading varint") e), off)
  | (GoOut.panicked, off) => (GoOut.panicked, off)

/-- `func WriteVarLong(buffer *[]byte, value int64)`. -/
def WriteVarLong (buffer : List Nat) (value : Int) : List Nat :=
  WriteUnsignedVarLong buffer (toZigZag64 value)

/-- `func ReadVarLong(buffer *[]byte, offset *int) (int64, error)`. -/
def ReadVarLong (buffer : List Nat) (offset : Int) : GoOut Int × Int :=
  match ReadUnsignedVarLong buffer offset with
  | (GoOut.ok u, off) => (GoOut.ok (fromZigZag64 u), off)
  | (GoOut.err e, off) => (GoOut.err (GoErr.wrap ("Error reading var long") e), off)
  | (GoOut.panicked, off) => (GoOut.panicked, off)

/-- `func ReadString(buffer *[]byte, offset *int) (string, error)`: a varint
byte length followed by that many raw bytes (a Go string is a byte list in
this model). -/
def ReadString (buffer : List Nat) (offset : Int) : GoOut (List Nat) × Int :=
  match ReadUnsignedVarInt buffer offset with
  | (GoOut.ok l, off) =>
    match Read buffer off (l : Int) with
    | (GoOut.ok strbytes, off2) => (GoOut.ok strbytes, off2)
    | (GoOut.err e, off2) =>
        (GoOut.err (GoErr.wrap ("Error reading the bytes of the string") e), off2)
    | (GoOut.panicked, off2) => (GoOut.panicked, off2)
  | (GoOut.err e, off) =>
      (GoOut.err (GoErr.wrap ("Error reading length of string") e), off)
  | (GoOut.panicked, off) => (GoOut.panicked, off)

/-- `type streamErr struct { err error; offset int; buf *[]byte }`.
`err : Option GoErr` models the Go `error` interface value inside the
struct (`none` is a nil error); `buf` models the `*[]byte` pointer. -/
structure StreamErrS where
  err : Option GoErr
  offset : Int
  buf : Option (List Nat)
deriving DecidableEq

/-- `type Stream struct { Offset int; Buffer []byte; err *streamErr }`.
The `err` field is a pointer: `none` models a nil pointer (only possible on
a zero-value `Stream{}`, since the field is unexported and both constructors
set it); `some se` models a pointer to `se`. -/
structure Stream where
  Offset : Int
  Buffer : List Nat
  err : Option StreamErrS
deriving DecidableEq

/-- `func NewStream() *Stream { return &Stream{0, []byte{}, &streamErr{}} }`. -/
def NewStream : Stream := { Offset := 0, Buffer := [], err := some { err := none, offset := 0, buf := none } }

/-- `func NewGetStream(buf []byte, offset int) *Stream`. -/
def NewGetStream (buf : List Nat) (offset : Int) : Stream :=
  { Offset := offset, Buffer := buf, err := some { err := none, offset := 0, buf := some buf } }

/-- `func (stream *Stream) Error() error { return stream.err }`: the
`*streamErr` pointer is returned as an `error` interface value.  Note that
in Go even a nil `*streamErr` would box to a non-nil interface; for the
claims only the pointer itself matters, so the model returns the pointer. -/
def Stream.Error (stream : Stream) : Option StreamErrS := stream.err

/-- `func (stream *Stream) SetError(err error)`: writes through the `err`
pointer (`stream.err.err = err; stream.err.offset = stream.Offset`), so it
panics when the pointer is nil. -/
def Stream.SetError (stream : Stream) (e : GoErr) : GoOut Stream :=
  match stream.err with
  | none => GoOut.panicked
  | some se =>
      GoOut.ok { stream with
        err := some { err := some e, offset := stream.Offset, buf := se.buf } }

/-- `func (stream *Stream) Feof() bool { return stream.Offset >= len(stream.Buffer)-1 }`. -/
def Stream.Feof (stream : Stream) : Bool :=
  decide (stream.Offset ≥ (stream.Buffer.length : Int) - 1)

/-- `func (stream *Stream) Get(length int) []byte`: returns nil when the
`err` pointer is non-nil; otherwise a negative length means
`len(Buffer) - Offset - 1`, and a failed `Read` latches the error. -/
def Stream.Get (stream : Stream) (length : Int) : GoOut (List Nat × Stream) :=
  if stream.err.isSome then GoOut.ok ([], stream)
  else
    let length2 := if length < 0 then (stream.Buffer.length : Int) - stream.Offset - 1 else length
    match Read stream.Buffer stream.Offset length2 with
    | (GoOut.ok b, off) => GoOut.ok (b, { stream with Offset := off })
    | (GoOut.err e, off) =>
        match Stream.SetError { stream with Offset := off } e with
        | GoOut.ok s2 => GoOut.ok ([], s2)
        | _ => GoOut.panicked
    | (GoOut.panicked, _) => GoOut.panicked

/-- `func (stream *Stream) PutByte(v byte)`. -/
def Stream.PutByte (stream : Stream) (v : Nat) : Stream :=
  { stream with Buffer := WriteByte stream.Buffer v }

/-- `func (stream *Stream) GetByte() byte`: no fault check; a failed read
latches the error and the zero value 0 is returned. -/
def Stream.GetByte (stream : Stream) : GoOut (Nat × Stream) :=
  match ReadByte stream.Buffer stream.Offset with
  | (GoOut.ok b, off) => GoOut.ok (b, { stream with Offset := off })
  | (GoOut.err e, off) =>
      match Stream.SetError { stream with Offset := off } e with
      | GoOut.ok s2 => GoOut.ok (0, s2)
      | _ => GoOut.panicked
  | (GoOut.panicked, _) => GoOut.panicked

/-- `func (stream *Stream) PutShort(v int16)`. -/
def Stream.PutShort (stream : Stream) (v : Int) : Stream :=
  { stream with Buffer := WriteShort stream.Buffer v }

/-- `func (stream *Stream) GetShort() int16`: no fault check. -/
def Stream.GetShort (stream : Stream) : GoOut (Int × Stream) :=
  match ReadShort stream.Buffer stream.Offset with
  | (GoOut.ok b, off) => GoOut.ok (b, { stream with Offset := off })
  | (GoOut.err e, off) =>
      match Stream.SetError { stream with Offset := off } e with
      | GoOut.ok s2 => GoOut.ok (0, s2)
      | _ => GoOut.panicked
  | (GoOut.panicked, _) => GoOut.panicked

/-- `func (stream *Stream) PutUnsignedVarInt(v uint32)`. -/
def Stream.PutUnsignedVarInt (stream : Stream) (v : Nat) : Stream :=
  { stream with Buffer := WriteUnsignedVarInt stream.Buffer v }

/-- `func (stream *Stream) GetVarInt() int32`: returns 0 when the `err`
pointer is non-nil. -/
def Stream.GetVarInt (stream : Stream) : GoOut (Int × Stream) :=
  if stream.err.isSome then GoOut.ok (0, stream)
  else
    match ReadVarInt stream.Buffer stream.Offset with
    | (GoOut.ok i, off) => GoOut.ok (i, { stream with Offset := off })
    | (GoOut.err e, off) =>
        match Stream.SetError { stream with Offset := off } e with
        | GoOut.ok s2 => GoOut.ok (0, s2)
        | _ => GoOut.panicked
    | (GoOut.panicked, _) => GoOut.panicked

/-- `func (stream *Stream) GetVarLong() int64`: returns 0 when the `err`
pointer is non-nil. -/
def Stream.GetVarLong (stream : Stream) : GoOut (Int × Stream) :=
  if stream.err.isSome then GoOut.ok (0, stream)
  else
    match ReadVarLong stream.Buffer stream.Offset with
    | (GoOut.ok i, off) => GoOut.ok (i, { stream with Offset := off })
    | (GoOut.err e, off) =>
        match Stream.SetError { stream with Offset := off } e with
        | GoOut.ok s2 => GoOut.ok (0, s2)
        | _ => GoOut.panicked
    | (GoOut.panicked, _) => GoOut.panicked

/-- `func (stream *Stream) GetUnsignedVarInt() uint32`: returns 0 when the
`err` pointer is non-nil. -/
def Stream.GetUnsignedVarInt (stream : Stream) : GoOut (Nat × Stream) :=
  if stream.err.isSome then GoOut.ok (0, stream)
  else
    match ReadUnsignedVarInt stream.Buffer stream.Offset with
    | (GoOut.ok i, off) => GoOut.ok (i, { stream with Offset := off })
    | (GoOut.err e, off) =>
        match Stream.SetError { stream with Offset := off } e with
        | GoOut.ok s2 => GoOut.ok (0, s2)
        | _ => GoOut.panicked
    | (GoOut.panicked, _) => GoOut.panicked

/-- `func (stream *Stream) GetUnsignedVarLong() uint64`: returns 0 when the
`err` pointer is non-nil. -/
def Stream.GetUnsignedVarLong (stream : Stream) : GoOut (Nat × Stream) :=
  if stream.err.isSome then GoOut.ok (0, stream)
  else
    match ReadUnsignedVarLong stream.Buffer stream.Offset with
    | (GoOut.ok i, off) => GoOut.ok (i, { stream with Offset := off })
    | (GoOut.err e, off) =>
        match Stream.SetError { stream with Offset := off } e with
        | GoOut.ok s2 => GoOut.ok (0, s2)
        | _ => GoOut.panicked
    | (GoOut.panicked, _) => GoOut.panicked

/-- `func (stream *Stream) GetString() string`: returns "" when the `err`
pointer is non-nil (the empty string is the empty byte list here). -/
def Stream.GetString (stream : Stream) : GoOut (List Nat × Stream) :=
  if stream.err.isSome then GoOut.ok ([], stream)
  else
    match ReadString stream.Buffer stream.Offset with
    | (GoOut.ok i, off) => GoOut.ok (i, { stream with Offset := off })
    | (GoOut.err e, off) =>
        match Stream.SetError { stream with Offset := off } e with
        | GoOut.ok s2 => GoOut.ok ([], s2)
        | _ => GoOut.panicked
    | (GoOut.panicked, _) => GoOut.panicked

/-- `func (stream *Stream) GetLengthPrefixedBytes() []byte`: returns
`[]byte(stream.GetString())`, the identity on the byte-list model. -/
def Stream.GetLengthPrefixedBytes (stream : Stream) : GoOut (List Nat × Stream) :=
  Stream.GetString stream

section RoundTrips

theorem rtBool (buffer : List Nat) (v : Bool) :
    ReadBool (WriteBool buffer v) (buffer.length : Int)
      = (GoOut.ok v, (buffer.length : Int) + 1) := by
  cases v
  · show ReadBool (buffer ++ [0x00]) (buffer.length : Int) = _
    unfold ReadBool
    rw [Read_append buffer _ 1 (by simp)]
    simp
  · show ReadBool (buffer ++ [0x01]) (buffer.length : Int) = _
    unfold ReadBool
    rw [Read_append buffer _ 1 (by simp)]
    simp

theorem rtByte (buffer : List Nat) (v : Nat) (_h : v < 256) :
    ReadByte (WriteByte buffer v) (buffer.length : Int)
      = (GoOut.ok v, (buffer.length : Int) + 1) := by
  unfold WriteByte Write ReadByte
  rw [Read_append buffer _ 1 (by simp)]
  simp

theorem rtUnsignedByte (buffer : List Nat) (v : Nat) (_h : v < 256) :
    ReadUnsignedByte (WriteUnsignedByte buffer v) (buffer.length : Int)
      = (GoOut.ok v, (buffer.length : Int) + 1) := by
  unfold WriteUnsignedByte WriteByte Write ReadUnsignedByte
  rw [Read_append buffer _ 1 (by simp)]
  simp

theorem rtShort (buffer : List Nat) (v : Int) (h1 : -32768 ≤ v) (h2 : v < 32768) :
    ReadShort (WriteShort buffer v) (buffer.length : Int)
      = (GoOut.ok v, (buffer.length : Int) + 2) := by
  unfold WriteShort ReadShort
  rw [Read_append buffer _ 2 (by simp)]
  simp only [List.getD_eq_getElem?_getD, List.getElem?_cons_zero,
    List.getElem?_cons_succ, Option.getD_some]
  rw [shl8_16, assemble16 _ (goUint16_lt v), goInt16_goUint16 v h1 h2]

theorem rtUnsignedShort (buffer : List Nat) (v : Nat) (h : v < 65536) :
    ReadUnsignedShort (WriteUnsignedShort buffer v) (buffer.length : Int)
      = (GoOut.ok v, (buffer.length : Int) + 2) := by
  unfold WriteUnsignedShort ReadUnsignedShort
  rw [Read_append buffer _ 2 (by simp)]
  simp only [List.getD_eq_getElem?_getD, List.getElem?_cons_zero,
    List.getElem?_cons_succ, Option.getD_some]
  rw [shl8_16, assemble16 v h]

theorem rtInt (buffer : List Nat) (v : Int) (h1 : -2147483648 ≤ v)
    (h2 : v < 2147483648) :
    ReadInt (WriteInt buffer v) (buffer.length : Int)
      = (GoOut.ok v, (buffer.length : Int) + 4) := by
  unfold WriteInt ReadInt
  rw [Read_append buffer _ 4 (by simp)]
  simp only [List.getD_eq_getElem?_getD, List.getElem?_cons_zero,
    List.getElem?_cons_succ, Option.getD_some]
  rw [shl8_32, shl16_32, shl24_32, assemble32 _ (goUint32_lt v),
    goInt32_goUint32 v h1 h2]

theorem rtUnsignedInt (buffer : List Nat) (v : Nat) (h : v < 4294967296) :
    ReadUnsignedInt (WriteUnsignedInt buffer v) (buffer.length : Int)
      = (GoOut.ok v, (buffer.length : Int) + 4) := by
  unfold WriteUnsignedInt ReadUnsignedInt
  rw [Read_append buffer _ 4 (by simp)]
  simp only [List.getD_eq_getElem?_getD, List.getElem?_cons_zero,
    List.getElem?_cons_succ, Option.getD_some]
  rw [shl8_32, shl16_32, shl24_32, assemble32 v h]

theorem rtLong (buffer : List Nat) (v : Int) (h1 : -9223372036854775808 ≤ v)
    (h2 : v < 9223372036854775808) :
    ReadLong (WriteLong buffer v) (buffer.length : Int)
      = (GoOut.ok v, (buffer.length : Int) + 8) := by
  unfold WriteLong ReadLong
  rw [Read_append buffer _ 8 (by simp)]
  simp only [List.getD_eq_getElem?_getD, List.getElem?_cons_zero,
    List.getElem?_cons_succ, Option.getD_some]
  rw [shl8_64, shl16_64, shl24_64, shl32_64, shl40_64, shl48_64, shl56_64,
    assemble64 _ (goUint64_lt v), goInt64_goUint64 v h1 h2]

theorem rtUnsignedLong (buffer : List Nat) (v : Nat)
    (h : v < 18446744073709551616) :
    ReadUnsignedLong (WriteUnsignedLong buffer v) (buffer.length : Int)
      = (GoOut.ok v, (buffer.length : Int) + 8) := by
  unfold WriteUnsignedLong ReadUnsignedLong
  rw [Read_append buffer _ 8 (by simp)]
  simp only [List.getD_eq_getElem?_getD, List.getElem?_cons_zero,
    List.getElem?_cons_succ, Option.getD_some]
  rw [shl8_64, shl16_64, shl24_64, shl32_64, shl40_64, shl48_64, shl56_64,
    assemble64 v h]

theorem rtFloat (buffer : List Nat) (v : Nat) (h : v < 4294967296) :
    ReadFloat (WriteFloat buffer v) (buffer.length : Int)
      = (GoOut.ok v, (buffer.length : Int) + 4) := by
  unfold WriteFloat ReadFloat
  rw [Read_append buffer _ 4 (by simp)]
  simp only [List.getD_eq_getElem?_getD, List.getElem?_cons_zero,
    List.getElem?_cons_succ, Option.getD_some]
  rw [shl8_32, shl16_32, shl24_32, assemble32 v h]

theorem rtDouble (buffer : List Nat) (v : Nat) (h : v < 18446744073709551616) :
    ReadDouble (WriteDouble buffer v) (buffer.length : Int)
      = (GoOut.ok v, (buffer.length : Int) + 8) := by
  unfold WriteDouble ReadDouble
  rw [Read_append buffer _ 8 (by simp)]
  simp only [List.getD_eq_getElem?_getD, List.getElem?_cons_zero,
    List.getElem?_cons_succ, Option.getD_some]
  rw [shl8_64, shl16_64, shl24_64, shl32_64, shl40_64, shl48_64, shl56_64,
    assemble64 v h]

theorem rtLittleShort (buffer : List Nat) (v : Int) (h1 : -32768 ≤ v)
    (h2 : v < 32768) :
    ReadLittleShort (WriteLittleShort buffer v) (buffer.length : Int)
      = (GoOut.ok v, (buffer.length : Int) + 2) := by
  unfold WriteLittleShort ReadLittleShort
  rw [Read_append buffer _ 2 (by simp)]
  simp only [List.getD_eq_getElem?_getD, List.getElem?_cons_zero,
    List.getElem?_cons_succ, Option.getD_some]
  rw [shl8_16, assemble16 _ (goUint16_lt v), goInt16_goUint16 v h1 h2]

theorem rtLittleUnsignedShort (buffer : List Nat) (v : Nat) (h : v < 65536) :
    ReadLittleUnsignedShort (WriteLittleUnsignedShort buffer v)
      (buffer.length : Int) = (GoOut.ok v, (buffer.length : Int) + 2) := by
  unfold WriteLittleUnsignedShort ReadLittleUnsignedShort
  rw [Read_append buffer _ 2 (by simp)]
  simp only [List.getD_eq_getElem?_getD, List.getElem?_cons_zero,
    List.getElem?_cons_succ, Option.getD_some]
  rw [shl8_16, assemble16 v h]

theorem rtLittleInt (buffer : List Nat) (v : Int) (h1 : -2147483648 ≤ v)
    (h2 : v < 2147483648) :
    ReadLittleInt (WriteLittleInt buffer v) (buffer.length : Int)
      = (GoOut.ok v, (buffer.length : Int) + 4) := by
  unfold WriteLittleInt ReadLittleInt
  rw [Read_append buffer _ 4 (by simp)]
  simp only [List.getD_eq_getElem?_getD, List.getElem?_cons_zero,
    List.getElem?_cons_succ, Option.getD_some]
  rw [shl8_32, shl16_32, shl24_32, assemble32 _ (goUint32_lt v),
    goInt32_goUint32 v h1 h2]

theorem rtLittleUnsignedInt (buffer : List Nat) (v : Nat) (h : v < 4294967296) :
    ReadLittleUnsignedInt (WriteLittleUnsignedInt buffer v)
      (buffer.length : Int) = (GoOut.ok v, (buffer.length : Int) + 4) := by
  unfold WriteLittleUnsignedInt ReadLittleUnsignedInt
  rw [Read_append buffer _ 4 (by simp)]
  simp only [List.getD_eq_getElem?_getD, List.getElem?_cons_zero,
    List.getElem?_cons_succ, Option.getD_some]
  rw [shl8_32, shl16_32, shl24_32, assemble32 v h]

theorem rtLittleLong (buffer : List Nat) (v : Int)
    (h1 : -9223372036854775808 ≤ v) (h2 : v < 9223372036854775808) :
    ReadLittleLong (WriteLittleLong buffer v) (buffer.length : Int)
      = (GoOut.ok v, (buffer.length : Int) + 8) := by
  unfold WriteLittleLong ReadLittleLong
  rw [Read_append buffer _ 8 (by simp)]
  simp only [List.getD_eq_getElem?_getD, List.getElem?_cons_zero,
    List.getElem?_cons_succ, Option.getD_some]
  rw [shl8_64, shl16_64, shl24_64, shl32_64, shl40_64, shl48_64, shl56_64,
    assemble64 _ (goUint64_lt v), goInt64_goUint64 v h1 h2]

theorem rtLittleUnsignedLong (buffer : List Nat) (v : Nat)
    (h : v < 18446744073709551616) :
    ReadLittleUnsignedLong (WriteLittleUnsignedLong buffer v)
      (buffer.length : Int) = (GoOut.ok v, (buffer.length : Int) + 8) := by
  unfold WriteLittleUnsignedLong ReadLittleUnsignedLong
  rw [Read_append buffer _ 8 (by simp)]
  simp only [List.getD_eq_getElem?_getD, List.getElem?_cons_zero,
    List.getElem?_cons_succ, Option.getD_some]
  rw [shl8_64, shl16_64, shl24_64, shl32_64, shl40_64, shl48_64, shl56_64,
    assemble64 v h]

theorem rtLittleFloat (buffer : List Nat) (v : Nat) (h : v < 4294967296) :
    ReadLittleFloat (WriteLittleFloat buffer v) (buffer.length : Int)
      = (GoOut.ok v, (buffer.length : Int) + 4) := by
  unfold WriteLittleFloat ReadLittleFloat
  rw [Read_append buffer _ 4 (by simp)]
  simp only [List.getD_eq_getElem?_getD, List.getElem?_cons_zero,
    List.getElem?_cons_succ, Option.getD_some]
  rw [shl8_32, shl16_32, shl24_32, assemble32 v h]

theorem rtLittleDouble (buffer : List Nat) (v : Nat)
    (h : v < 18446744073709551616) :
    ReadLittleDouble (WriteLittleDouble buffer v) (buffer.length : Int)
      = (GoOut.ok v, (buffer.length : Int) + 8) := by
  unfold WriteLittleDouble ReadLittleDouble
  rw [Read_append buffer _ 8 (by simp)]
  simp only [List.getD_eq_getElem?_getD, List.getElem?_cons_zero,
    List.getElem?_cons_succ, Option.getD_some]
  rw [shl8_64, shl16_64, shl24_64, shl32_64, shl40_64, shl48_64, shl56_64,
    assemble64 v h]

end RoundTrips

/-- Claim C1: for every fixed-width kind (bool, byte, unsigned byte,
16/32/64-bit signed and unsigned integers, 32-bit float, 64-bit double) in
both endianness variants, writing a value `v` and reading at the offset
where the encoding starts returns exactly `v`, for every representable `v`
(floats and doubles round-trip bit-exactly: they are modelled by their
IEEE-754 bit patterns, which `math.Float32bits`/`Float32frombits` and the
64-bit pair reinterpret bijectively, NaN and infinity payloads included). -/
theorem claim_C1_roundtrip :
    (∀ (buffer : List Nat) (v : Bool),
      ReadBool (WriteBool buffer v) (buffer.length : Int)
        = (GoOut.ok v, (buffer.length : Int) + 1)) ∧
    (∀ (buffer : List Nat) (v : Nat), v < 256 →
      ReadByte (WriteByte buffer v) (buffer.length : Int)
        = (GoOut.ok v, (buffer.length : Int) + 1)) ∧
    (∀ (buffer : List Nat) (v : Nat), v < 256 →
      ReadUnsignedByte (WriteUnsignedByte buffer v) (buffer.length : Int)
        = (GoOut.ok v, (buffer.length : Int) + 1)) ∧
    (∀ (buffer : List Nat) (v : Int), -32768 ≤ v → v < 32768 →
      ReadShort (WriteShort buffer v) (buffer.length : Int)
        = (GoOut.ok v, (buffer.length : Int) + 2)) ∧
    (∀ (buffer : List Nat) (v : Nat), v < 65536 →
      ReadUnsignedShort (WriteUnsignedShort buffer v) (buffer.length : Int)
        = (GoOut.ok v, (buffer.length : Int) + 2)) ∧
    (∀ (buffer : List Nat) (v : Int), -2147483648 ≤ v → v < 2147483648 →
      ReadInt (WriteInt buffer v) (buffer.length : Int)
        = (GoOut.ok v, (buffer.length : Int) + 4)) ∧
    (∀ (buffer : List Nat) (v : Nat), v < 4294967296 →
      ReadUnsignedInt (WriteUnsignedInt buffer v) (buffer.length : Int)
        = (GoOut.ok v, (buffer.length : Int) + 4)) ∧
    (∀ (buffer : List Nat) (v : Int),
      -9223372036854775808 ≤ v → v < 9223372036854775808 →
      ReadLong (WriteLong buffer v) (buffer.length : Int)
        = (GoOut.ok v, (buffer.length : Int) + 8)) ∧
    (∀ (buffer : List Nat) (v : Nat), v < 18446744073709551616 →
      ReadUnsignedLong (WriteUnsignedLong buffer v) (buffer.length : Int)
        = (GoOut.ok v, (buffer.length : Int) + 8)) ∧
    (∀ (buffer : List Nat) (v : Nat), v < 4294967296 →
      ReadFloat (WriteFloat buffer v) (buffer.length : Int)
        = (GoOut.ok v, (buffer.length : Int) + 4)) ∧
    (∀ (buffer : List Nat) (v : Nat), v < 18446744073709551616 →
      ReadDouble (WriteDouble buffer v) (buffer.length : Int)
        = (GoOut.ok v, (buffer.length : Int) + 8)) ∧
    (∀ (buffer : List Nat) (v : Int), -32768 ≤ v → v < 32768 →
      ReadLittleShort (WriteLittleShort buffer v) (buffer.length : Int)
        = (GoOut.ok v, (buffer.length : Int) + 2)) ∧
    (∀ (buffer : List Nat) (v : Nat), v < 65536 →
      ReadLittleUnsignedShort (WriteLittleUnsignedShort buffer v)
        (buffer.length : Int) = (GoOut.ok v, (buffer.length : Int) + 2)) ∧
    (∀ (buffer : List Nat) (v : Int), -2147483648 ≤ v → v < 2147483648 →
      ReadLittleInt (WriteLittleInt buffer v) (buffer.length : Int)
        = (GoOut.ok v, (buffer.length : Int) + 4)) ∧
    (∀ (buffer : List Nat) (v : Nat), v < 4294967296 →
      ReadLittleUnsignedInt (WriteLittleUnsignedInt buffer v)
        (buffer.length : Int) = (GoOut.ok v, (buffer.length : Int) + 4)) ∧
    (∀ (buffer : List Nat) (v : Int),
      -9223372036854775808 ≤ v → v < 9223372036854775808 →
      ReadLittleLong (WriteLittleLong buffer v) (buffer.length : Int)
        = (GoOut.ok v, (buffer.length : Int) + 8)) ∧
    (∀ (buffer : List Nat) (v : Nat), v < 18446744073709551616 →
      ReadLittleUnsignedLong (WriteLittleUnsignedLong buffer v)
        (buffer.length : Int) = (GoOut.ok v, (buffer.length : Int) + 8)) ∧
    (∀ (buffer : List Nat) (v : Nat), v < 4294967296 →
      ReadLittleFloat (WriteLittleFloat buffer v) (buffer.length : Int)
        = (GoOut.ok v, (buffer.length : Int) + 4)) ∧
    (∀ (buffer : List Nat) (v : Nat), v < 18446744073709551616 →
      ReadLittleDouble (WriteLittleDouble buffer v) (buffer.length : Int)
        = (GoOut.ok v, (buffer.length : Int) + 8)) :=
  ⟨rtBool, rtByte, rtUnsignedByte, rtShort, rtUnsignedShort, rtInt,
    rtUnsignedInt, rtLong, rtUnsignedLong, rtFloat, rtDouble, rtLittleShort,
    rtLittleUnsignedShort, rtLittleInt, rtLittleUnsignedInt, rtLittleLong,
    rtLittleUnsignedLong, rtLittleFloat, rtLittleDouble⟩

/-- Claim C1 witness: concrete boundary instances of the round-trip law —
the 16-bit minimum, `-1` as a little-endian long, the all-ones unsigned
long, and a quiet-NaN double bit pattern (0x7FF8000000000001). -/
theorem claim_C1_roundtrip_witness :
    ReadShort (WriteShort [] (-32768)) 0 = (GoOut.ok (-32768), 2) ∧
    ReadLittleLong (WriteLittleLong [] (-1)) 0 = (GoOut.ok (-1), 8) ∧
    ReadUnsignedLong (WriteUnsignedLong [] 18446744073709551615) 0
      = (GoOut.ok 18446744073709551615, 8) ∧
    ReadDouble (WriteDouble [] 9221120237041090561) 0
      = (GoOut.ok 9221120237041090561, 8) := by
  refine ⟨?_, ?_, ?_, ?_⟩
  · simpa using claim_C1_roundtrip.2.2.2.1 [] (-32768) (by decide) (by decide)
  · simpa using
      claim_C1_roundtrip.2.2.2.2.2.2.2.2.2.2.2.2.2.2.2.1 [] (-1) (by decide)
        (by decide)
  · simpa using claim_C1_roundtrip.2.2.2.2.2.2.2.2.1 [] 18446744073709551615
      (by decide)
  · simpa using claim_C1_roundtrip.2.2.2.2.2.2.2.2.2.2.1 [] 9221120237041090561
      (by decide)

/-- Claim C2: for every buffer, offset with `0 ≤ offset ≤ len(buffer)` and
length `≥ 0`, `Read` fails with the InsufficientBytes error exactly when
`offset + length` exceeds the buffer length, leaving the offset unchanged on
failure; on success it returns the `length`-byte slice starting at `offset`
and advances the offset by exactly `length`. -/
theorem claim_C2_read_contract :
    ∀ (buffer : List Nat) (offset length : Int),
      0 ≤ offset → offset ≤ (buffer.length : Int) → 0 ≤ length →
      (((buffer.length : Int) < offset + length →
        Read buffer offset length = (GoOut.err insufficientBytes, offset)) ∧
      (offset + length ≤ (buffer.length : Int) →
        ∃ bs, Read buffer offset length = (GoOut.ok bs, offset + length) ∧
          (bs.length : Int) = length ∧
          ∀ i, i < bs.length → bs.getD i 0 = buffer.getD (offset.toNat + i) 0) ∧
      ((∃ e, (Read buffer offset length).1 = GoOut.err e) ↔
        (buffer.length : Int) < offset + length)) := by
  intro buffer offset length h0 h1 h2
  refine ⟨?_, ?_, ?_⟩
  · intro h
    unfold Read
    rw [if_pos h]
  · intro h
    unfold Read
    rw [if_neg (not_lt.mpr h), if_neg (by omega)]
    refine ⟨_, rfl, ?_, ?_⟩
    · simp only [List.length_take, List.length_drop]
      omega
    · intro i hi
      have hlen : i < ((buffer.drop offset.toNat).take length.toNat).length := hi
      have hbuf : offset.toNat + i < buffer.length := by
        simp only [List.length_take, List.length_drop] at hlen
        omega
      rw [List.getD_eq_getElem _ _ hlen, List.getD_eq_getElem _ _ hbuf,
        List.getElem_take, List.getElem_drop]
  · constructor
    · rintro ⟨e, he⟩
      by_contra hlt
      unfold Read at he
      rw [if_neg hlt, if_neg (by omega)] at he
      exact GoOut.noConfusion he
    · intro h
      refine ⟨insufficientBytes, ?_⟩
      unfold Read
      rw [if_pos h]

/-- Claim C2 witness: on the three-byte buffer `[10, 20, 30]` at offset 1,
reading 5 bytes fails with the InsufficientBytes error and leaves the offset
at 1, while reading 2 bytes succeeds, returns `[20, 30]` and moves the
offset to 3. -/
theorem claim_C2_read_contract_witness :
    Read [10, 20, 30] 1 5 = (GoOut.err insufficientBytes, 1) ∧
    ∃ bs, Read [10, 20, 30] 1 2 = (GoOut.ok bs, 1 + 2) ∧ (bs.length : Int) = 2 := by
  constructor
  · exact (claim_C2_read_contract [10, 20, 30] 1 5 (by decide) (by decide)
      (by decide)).1 (by decide)
  · obtain ⟨bs, hbs, hl, -⟩ :=
      (claim_C2_read_contract [10, 20, 30] 1 2 (by decide) (by decide)
        (by decide)).2.1 (by decide)
    exact ⟨bs, hbs, hl⟩

/-- Claim C10: `Feof` returns true iff the offset is at least
`len(Buffer) - 1` (so the very last byte position already counts as at end),
and calling it changes nothing: it is a pure function of the offset and the
buffer length alone, so in particular it neither consults nor alters the
latched fault, the buffer contents, or the offset. -/
theorem claim_C10_feof :
    ∀ s : Stream,
      (s.Feof = true ↔ s.Offset ≥ (s.Buffer.length : Int) - 1) ∧
      (∀ t : Stream, t.Offset = s.Offset → t.Buffer.length = s.Buffer.length →
        t.Feof = s.Feof) := by
  intro s
  constructor
  · simp [Stream.Feof]
  · intro t ho hb
    simp [Stream.Feof, ho, hb]

/-- Claim C10 witness: on `NewGetStream [1, 2, 3] 2` the offset 2 equals
`len - 1`, so `Feof` is already true; and a stream with the same offset and
buffer length but different contents and a nil fault pointer answers the
same. -/
theorem claim_C10_feof_witness :
    (NewGetStream [1, 2, 3] 2).Feof = true ∧
    (⟨2, [9, 9, 9], none⟩ : Stream).Feof = (NewGetStream [1, 2, 3] 2).Feof := by
  constructor
  · exact (claim_C10_feof (NewGetStream [1, 2, 3] 2)).1.mpr (by decide)
  · exact (claim_C10_feof (NewGetStream [1, 2, 3] 2)).2 ⟨2, [9, 9, 9], none⟩
      (by decide) (by decide)

/-- The getters that test the `err` pointer for nil short-circuit to a zero
value whenever that pointer is non-nil, leaving the stream untouched. -/
theorem getters_shortCircuit (s : Stream) (h : s.err.isSome = true) :
    (∀ L : Int, s.Get L = GoOut.ok ([], s)) ∧
    s.GetVarInt = GoOut.ok (0, s) ∧
    s.GetVarLong = GoOut.ok (0, s) ∧
    s.GetUnsignedVarInt = GoOut.ok (0, s) ∧
    s.GetUnsignedVarLong = GoOut.ok (0, s) ∧
    s.GetString = GoOut.ok ([], s) ∧
    s.GetLengthPrefixedBytes = GoOut.ok ([], s) := by
  refine ⟨fun L => ?_, ?_, ?_, ?_, ?_, ?_, ?_⟩ <;>
    simp [Stream.Get, Stream.GetVarInt, Stream.GetVarLong,
      Stream.GetUnsignedVarInt, Stream.GetUnsignedVarLong, Stream.GetString,
      Stream.GetLengthPrefixedBytes, h]

/-- Claim C8: both constructors set the internal `err` field to a non-nil
pointer, so `Error()` returns a non-nil pointer on a fresh stream, and every
getter that tests the `err` field for nil — `Get`, `GetVarInt`, `GetVarLong`,
`GetUnsignedVarInt`, `GetUnsignedVarLong`, `GetString`,
`GetLengthPrefixedBytes` — always takes the short-circuit branch, returning
the zero value and consuming no bytes, for every buffer content and offset. -/
theorem claim_C8_always_shortcircuit :
    NewStream.err.isSome = true ∧
    (∀ (buf : List Nat) (off : Int), (NewGetStream buf off).err.isSome = true) ∧
    NewStream.Error ≠ none ∧
    (∀ (buf : List Nat) (off : Int), (NewGetStream buf off).Error ≠ none) ∧
    (∀ s : Stream, s.err.isSome = true →
      (∀ L : Int, s.Get L = GoOut.ok ([], s)) ∧
      s.GetVarInt = GoOut.ok (0, s) ∧
      s.GetVarLong = GoOut.ok (0, s) ∧
      s.GetUnsignedVarInt = GoOut.ok (0, s) ∧
      s.GetUnsignedVarLong = GoOut.ok (0, s) ∧
      s.GetString = GoOut.ok ([], s) ∧
      s.GetLengthPrefixedBytes = GoOut.ok ([], s)) := by
  refine ⟨rfl, fun buf off => rfl, by simp [NewStream, Stream.Error],
    fun buf off => by simp [NewGetStream, Stream.Error],
    fun s h => getters_shortCircuit s h⟩

/-- Claim C8 witness: on the fresh stream `NewGetStream [7, 7, 7] 1`, whose
buffer has plenty of bytes, `Get 2` and `GetString` still return the zero
value with the stream unchanged. -/
theorem claim_C8_always_shortcircuit_witness :
    (NewGetStream [7, 7, 7] 1).err.isSome = true ∧
    (NewGetStream [7, 7, 7] 1).Get 2
      = GoOut.ok ([], NewGetStream [7, 7, 7] 1) ∧
    (NewGetStream [7, 7, 7] 1).GetString
      = GoOut.ok ([], NewGetStream [7, 7, 7] 1) := by
  refine ⟨by decide, ?_, ?_⟩
  · exact (claim_C8_always_shortcircuit.2.2.2.2 (NewGetStream [7, 7, 7] 1)
      (by decide)).1 2
  · exact (claim_C8_always_shortcircuit.2.2.2.2 (NewGetStream [7, 7, 7] 1)
      (by decide)).2.2.2.2.2.1

/-- The error `ReadShort` wraps around an insufficient-bytes failure. -/
def shortReadErr : GoErr :=
  GoErr.wrap ("Error reading bytes for short") insufficientBytes

/-- The stream `NewGetStream [7] 0` after a failed `GetShort`: the fault is
latched (error set, failing offset 0 recorded). -/
def faultedShort : Stream :=
  ⟨0, [7], some ⟨some shortReadErr, 0, some [7]⟩⟩

/-- Claim C3 counterexample: on `NewGetStream [7] 0`, `GetShort` fails and
latches the fault, yet the subsequent `GetByte` still reads the buffer,
returns the nonzero byte 7 and advances the offset from 0 to 1 — `GetByte`
performs no fault check, refuting "every subsequent Get call of any kind
returns the zero value without accessing the buffer or advancing the
offset". -/
theorem claim_C3_counterexample :
    (NewGetStream [7] 0).GetShort = GoOut.ok (0, faultedShort) ∧
    (faultedShort.err.bind StreamErrS.err).isSome = true ∧
    faultedShort.GetByte = GoOut.ok (7, { faultedShort with Offset := 1 }) ∧
    (7 : Nat) ≠ 0 ∧
    ({ faultedShort with Offset := 1 }).Offset ≠ faultedShort.Offset :=
  ⟨rfl, rfl, rfl, by decide, by decide⟩

/-- Claim C3 (amended): once a fault is latched, the getters that test the
`err` field — `Get`, `GetVarInt`, `GetVarLong`, `GetUnsignedVarInt`,
`GetUnsignedVarLong`, `GetString`, `GetLengthPrefixedBytes` — return the zero
value of their result type immediately, without accessing the buffer or
advancing the offset; the fixed-width getters (such as `GetByte`) keep
reading and advancing; and Put calls still append their encoding to the
buffer unconditionally, leaving the offset and fault untouched. -/
theorem claim_C3_amended :
    ∀ (s : Stream) (se : StreamErrS) (e : GoErr),
      s.err = some se → se.err = some e →
      ((∀ L : Int, s.Get L = GoOut.ok ([], s)) ∧
        s.GetVarInt = GoOut.ok (0, s) ∧
        s.GetVarLong = GoOut.ok (0, s) ∧
        s.GetUnsignedVarInt = GoOut.ok (0, s) ∧
        s.GetUnsignedVarLong = GoOut.ok (0, s) ∧
        s.GetString = GoOut.ok ([], s) ∧
        s.GetLengthPrefixedBytes = GoOut.ok ([], s)) ∧
      (∀ v : Nat, (s.PutByte v).Buffer = s.Buffer ++ [v] ∧
        (s.PutByte v).Offset = s.Offset ∧ (s.PutByte v).err = s.err) ∧
      (∀ v : Int, (s.PutShort v).Buffer
          = s.Buffer ++ [(goUint16 v >>> 8) % 256, goUint16 v % 256] ∧
        (s.PutShort v).Offset = s.Offset ∧ (s.PutShort v).err = s.err) ∧
      (∀ v : Nat, (s.PutUnsignedVarInt v).Buffer
          = s.Buffer ++ writeUnsignedVarIntLoop v 5 ∧
        (s.PutUnsignedVarInt v).Offset = s.Offset ∧
        (s.PutUnsignedVarInt v).err = s.err) := by
  intro s se e hse hee
  refine ⟨getters_shortCircuit s (by rw [hse]; rfl), fun v => ?_, fun v => ?_,
    fun v => ?_⟩
  · exact ⟨rfl, rfl, rfl⟩
  · exact ⟨rfl, rfl, rfl⟩
  · exact ⟨rfl, rfl, rfl⟩

/-- Claim C3 (amended) witness: on the latched stream left by the failed
`GetShort` of `NewGetStream [7] 0`, `GetVarInt` short-circuits to 0 with the
stream unchanged and `PutByte 9` still appends. -/
theorem claim_C3_amended_witness :
    faultedShort.GetVarInt = GoOut.ok (0, faultedShort) ∧
    (faultedShort.PutByte 9).Buffer = faultedShort.Buffer ++ [9] := by
  have h := claim_C3_amended faultedShort ⟨some shortReadErr, 0, some [7]⟩
    shortReadErr rfl rfl
  exact ⟨h.1.2.1, (h.2.1 9).1⟩

/-- Claim C5 counterexample: `NewGetStream [7] 0` latches a fault at offset 0
through a failed `GetShort`; the succeeding `GetByte` advances to offset 1,
and a second failing `GetShort` overwrites the recorded fault offset with 1 —
the recorded fault does not remain that of the first failure. -/
theorem claim_C5_counterexample :
    (NewGetStream [7] 0).GetShort = GoOut.ok (0, faultedShort) ∧
    faultedShort.err = some ⟨some shortReadErr, 0, some [7]⟩ ∧
    faultedShort.GetByte = GoOut.ok (7, { faultedShort with Offset := 1 }) ∧
    ({ faultedShort with Offset := 1 }).GetShort
      = GoOut.ok (0, ⟨1, [7], some ⟨some shortReadErr, 1, some [7]⟩⟩) ∧
    (1 : Int) ≠ 0 :=
  ⟨rfl, rfl, rfl, rfl, by decide⟩

/-- Claim C5 (amended): `SetError` overwrites unconditionally, so a later
`Get` failure through a getter that performs no fault check replaces the
latched error and its recorded offset with those of the most recent failure;
only the err-checking getters never touch the recorded fault (they
short-circuit before reading). -/
theorem claim_C5_amended :
    ∀ (s : Stream) (se : StreamErrS) (e : GoErr),
      s.err = some se →
      (s.SetError e
        = GoOut.ok { s with err := some ⟨some e, s.Offset, se.buf⟩ }) ∧
      ((s.Buffer.length : Int) < s.Offset + 2 →
        s.GetShort = GoOut.ok (0,
          { s with err := some ⟨some shortReadErr, s.Offset, se.buf⟩ })) ∧
      (∀ L : Int, s.Get L = GoOut.ok ([], s)) := by
  intro s se e hse
  refine ⟨?_, ?_, fun L => (getters_shortCircuit s (by rw [hse]; rfl)).1 L⟩
  · simp [Stream.SetError, hse]
  · intro h2
    have hr : Read s.Buffer s.Offset 2 = (GoOut.err insufficientBytes, s.Offset) := by
      unfold Read
      rw [if_pos h2]
    unfold Stream.GetShort ReadShort
    rw [hr]
    simp [Stream.SetError, hse, shortReadErr]

/-- Claim C5 (amended) witness: a stream carrying a stale fault (error "old"
recorded at offset 0) has that fault overwritten — `SetError` re-records at
the current offset 5, and a failing `GetShort` re-latches the short-read
error at offset 5. -/
theorem claim_C5_amended_witness :
    (⟨5, [7], some ⟨some (GoErr.new ("old")), 0, some [7]⟩⟩ : Stream).SetError
        (GoErr.new ("fresh"))
      = GoOut.ok ⟨5, [7], some ⟨some (GoErr.new ("fresh")), 5, some [7]⟩⟩ ∧
    (⟨5, [7], some ⟨some (GoErr.new ("old")), 0, some [7]⟩⟩ : Stream).GetShort
      = GoOut.ok (0, ⟨5, [7], some ⟨some shortReadErr, 5, some [7]⟩⟩) := by
  have h := claim_C5_amended
    ⟨5, [7], some ⟨some (GoErr.new ("old")), 0, some [7]⟩⟩
    ⟨some (GoErr.new ("old")), 0, some [7]⟩ (GoErr.new ("fresh")) rfl
  exact ⟨h.1, h.2.1 (by decide)⟩

/-- Claim C9: evaluation of the code at the failing input.  On the
constructor-built stream `NewGetStream [1, 2, 3] 0` — which has no latched
fault — `Get (-1)` returns nil and leaves the offset at 0 instead of reading
the `len - offset - 1 = 2` bytes `[1, 2]`, because `Get` tests the `err`
*pointer* (always non-nil from a constructor) rather than the latched error.
A stream whose `err` pointer is nil (obtainable only as a zero-value
`Stream{}`) shows the behavior the claim and `Get`'s own doc comment
describe. -/
theorem claim_C9_get_dead_code :
    (NewGetStream [1, 2, 3] 0).Get (-1)
      = GoOut.ok ([], NewGetStream [1, 2, 3] 0) ∧
    ([] : List Nat) ≠ [1, 2] ∧
    (⟨0, [1, 2, 3], none⟩ : Stream).Get (-1)
      = GoOut.ok ([1, 2], ⟨2, [1, 2, 3], none⟩) :=
  ⟨rfl, by decide, rfl⟩

/-- Xor with a power of two above all bits of `a` just adds it. -/
theorem xor_two_pow_of_lt {a k : Nat} (h : a < 2 ^ k) :
    a ^^^ 2 ^ k = 2 ^ k + a := by
  apply Nat.eq_of_testBit_eq
  intro j
  rcases lt_trichotomy j k with hj | hj | hj
  · rw [Nat.testBit_xor, Nat.testBit_two_pow_of_ne (by omega),
      Nat.testBit_two_pow_add_gt hj]
    simp
  · subst hj
    rw [Nat.testBit_xor, Nat.testBit_two_pow_self, Nat.testBit_two_pow_add_eq,
      Nat.testBit_lt_two_pow h]
    rfl
  · have h1 : a.testBit j = false :=
      Nat.testBit_lt_two_pow
        (lt_of_lt_of_le h (Nat.pow_le_pow_right (by norm_num) (le_of_lt hj)))
    have h2 : 2 ^ k + a < 2 ^ j := by
      have : 2 ^ (k + 1) ≤ 2 ^ j := Nat.pow_le_pow_right (by norm_num) hj
      have := Nat.pow_succ 2 k
      omega
    rw [Nat.testBit_xor, h1, Nat.testBit_two_pow_of_ne (by omega),
      Nat.testBit_lt_two_pow h2]
    rfl

set_option maxRecDepth 2048 in
/-- Zig-zag round-trip, 32 bits. -/
theorem zigzagRT32 (n : Int) (h1 : -2147483648 ≤ n) (h2 : n < 2147483648) :
    fromZigZag32 (toZigZag32 n) = n := by
  unfold toZigZag32 fromZigZag32
  rcases le_or_lt 0 n with hn | hn
  · have hu : goUint32 n = n.toNat := by unfold goUint32; omega
    rw [hu]
    have e1 : n.toNat >>> 31 = 0 := by
      rw [Nat.shiftRight_eq_div_pow]
      exact Nat.div_eq_of_lt (by norm_num; omega)
    have e2 : (n.toNat <<< 1) % 4294967296 = 2 * n.toNat := by
      rw [Nat.shiftLeft_eq]
      norm_num
      omega
    rw [e1, e2]
    simp only [Nat.zero_mul, Nat.xor_zero]
    have e3 : (2 * n.toNat) >>> 1 = n.toNat := by
      rw [Nat.shiftRight_eq_div_pow]
      norm_num
    have e4 : (2 * n.toNat) &&& 1 = 0 := by
      rw [Nat.and_one_is_mod]
      omega
    rw [e3, e4]
    simp only [Nat.zero_mul, Nat.xor_zero]
    unfold goInt32
    omega
  · obtain ⟨u, hueq, hu1, hu2⟩ :
        ∃ u, goUint32 n = u ∧ 2147483648 ≤ u ∧ u < 4294967296 := by
      refine ⟨goUint32 n, rfl, ?_, ?_⟩ <;> (unfold goUint32; omega)
    rw [hueq]
    have e1 : u >>> 31 = 1 := by
      rw [Nat.shiftRight_eq_div_pow]
      norm_num
      omega
    have e2 : (u <<< 1) % 4294967296 = 2 * u - 4294967296 := by
      rw [Nat.shiftLeft_eq]
      norm_num
      omega
    rw [e1, e2]
    simp only [Nat.one_mul]
    have hx1 : ((2 * u - 4294967296) ^^^ 4294967295) &&& 1 = 1 := by
      rw [Nat.and_one_is_mod]
      rw [Nat.xor_mod_two_eq_one]
      omega
    have hx2 : ((2 * u - 4294967296) ^^^ 4294967295) >>> 1
        = (u - 2147483648) ^^^ 2147483647 := by
      rw [Nat.shiftRight_eq_div_pow, pow_one, Nat.xor_div_two,
        (by omega : (2 * u - 4294967296) / 2 = u - 2147483648),
        (by norm_num : (4294967295 : Nat) / 2 = 2147483647)]
    rw [hx1, hx2]
    simp only [Nat.one_mul]
    rw [Nat.xor_assoc, (by decide : (2147483647 : Nat) ^^^ 4294967295 = 2147483648),
      (by norm_num : (2147483648 : Nat) = 2 ^ 31),
      xor_two_pow_of_lt (show u - 2 ^ 31 < 2 ^ 31 by norm_num; omega)]
    unfold goInt32
    have hcollapse : 2 ^ 31 + (u - 2 ^ 31) = u := by norm_num; omega
    rw [hcollapse]
    have hn2 : goUint32 n = u := hueq
    unfold goUint32 at hn2
    omega

set_option maxRecDepth 2048 in
/-- Zig-zag round-trip, 64 bits. -/
theorem zigzagRT64 (n : Int) (h1 : -9223372036854775808 ≤ n)
    (h2 : n < 9223372036854775808) :
    fromZigZag64 (toZigZag64 n) = n := by
  unfold toZigZag64 fromZigZag64
  rcases le_or_lt 0 n with hn | hn
  · have hu : goUint64 n = n.toNat := by unfold goUint64; omega
    rw [hu]
    have e1 : n.toNat >>> 63 = 0 := by
      rw [Nat.shiftRight_eq_div_pow]
      exact Nat.div_eq_of_lt (by norm_num; omega)
    have e2 : (n.toNat <<< 1) % 18446744073709551616 = 2 * n.toNat := by
      rw [Nat.shiftLeft_eq]
      norm_num
      omega
    rw [e1, e2]
    simp only [Nat.zero_mul, Nat.xor_zero]
    have e3 : (2 * n.toNat) >>> 1 = n.toNat := by
      rw [Nat.shiftRight_eq_div_pow]
      norm_num
    have e4 : (2 * n.toNat) &&& 1 = 0 := by
      rw [Nat.and_one_is_mod]
      omega
    rw [e3, e4]
    simp only [Nat.zero_mul, Nat.xor_zero]
    unfold goInt64
    omega
  · obtain ⟨u, hueq, hu1, hu2⟩ :
        ∃ u, goUint64 n = u ∧ 9223372036854775808 ≤ u ∧
          u < 18446744073709551616 := by
      refine ⟨goUint64 n, rfl, ?_, ?_⟩ <;> (unfold goUint64; omega)
    rw [hueq]
    have e1 : u >>> 63 = 1 := by
      rw [Nat.shiftRight_eq_div_pow]
      norm_num
      omega
    have e2 : (u <<< 1) % 18446744073709551616 = 2 * u - 18446744073709551616 := by
      rw [Nat.shiftLeft_eq]
      norm_num
      omega
    rw [e1, e2]
    simp only [Nat.one_mul]
    have hx1 : ((2 * u - 18446744073709551616) ^^^ 18446744073709551615) &&& 1
        = 1 := by
      rw [Nat.and_one_is_mod]
      rw [Nat.xor_mod_two_eq_one]
      omega
    have hx2 : ((2 * u - 18446744073709551616) ^^^ 18446744073709551615) >>> 1
        = (u - 9223372036854775808) ^^^ 9223372036854775807 := by
      rw [Nat.shiftRight_eq_div_pow, pow_one, Nat.xor_div_two,
        (by omega : (2 * u - 18446744073709551616) / 2 = u - 9223372036854775808),
        (by norm_num : (18446744073709551615 : Nat) / 2 = 9223372036854775807)]
    rw [hx1, hx2]
    simp only [Nat.one_mul]
    rw [Nat.xor_assoc,
      (by decide :
        (9223372036854775807 : Nat) ^^^ 18446744073709551615
          = 9223372036854775808),
      (by norm_num : (9223372036854775808 : Nat) = 2 ^ 63),
      xor_two_pow_of_lt
        (show u - 2 ^ 63 < 2 ^ 63 by norm_num; omega)]
    unfold goInt64
    have hcollapse : 2 ^ 63 + (u - 2 ^ 63) = u := by
      norm_num
      omega
    rw [hcollapse]
    have hn2 : goUint64 n = u := hueq
    unfold goUint64 at hn2
    omega

/-- Claim C6: zig-zag encoding round-trips on all representable 32-bit and
64-bit signed integers, and `toZigZag32` maps 0 to 0, -1 to 1, and 1 to 2. -/
theorem claim_C6_zigzag :
    (∀ n : Int, -2147483648 ≤ n → n < 2147483648 →
      fromZigZag32 (toZigZag32 n) = n) ∧
    (∀ n : Int, -9223372036854775808 ≤ n → n < 9223372036854775808 →
      fromZigZag64 (toZigZag64 n) = n) ∧
    toZigZag32 0 = 0 ∧ toZigZag32 (-1) = 1 ∧ toZigZag32 1 = 2 :=
  ⟨zigzagRT32, zigzagRT64, by decide, by decide, by decide⟩

/-- Claim C6 witness: the round-trip evaluated through the theorem at the
32-bit minimum and at a large negative 64-bit value. -/
theorem claim_C6_zigzag_witness :
    fromZigZag32 (toZigZag32 (-2147483648)) = -2147483648 ∧
    fromZigZag64 (toZigZag64 (-123456789012345)) = -123456789012345 := by
  constructor
  · exact claim_C6_zigzag.1 (-2147483648) (by decide) (by decide)
  · exact claim_C6_zigzag.2.1 (-123456789012345) (by decide) (by decide)

theorem and255_eq_mod (x : Nat) : x &&& 255 = x % 256 := by
  rw [(by norm_num : (255 : Nat) = 2 ^ 8 - 1), Nat.and_pow_two_sub_one_eq_mod]

/-- The unmasked top slot of a reassembled integer: bit `i` of
`(v >>> k) <<< k` is bit `i` of `v` exactly when `k ≤ i`. -/
theorem testBit_highslot (v k i : Nat) :
    Nat.testBit ((v >>> k) <<< k) i = (decide (k ≤ i) && Nat.testBit v i) := by
  rcases Nat.lt_or_ge i k with h | h
  · simp [Nat.testBit_shiftLeft, Nat.not_le.mpr h]
  · have hik : k + (i - k) = i := Nat.add_sub_cancel' h
    simp [Nat.testBit_shiftLeft, Nat.testBit_shiftRight, h, hik]

/-- Reassembling the three bytes of a 24-bit value big-endian style, with no
mask on the most significant byte, gives the value back. -/
theorem assemble24big (v : Nat) (h : v < 16777216) :
    ((v >>> 16) <<< 16) ||| (((v >>> 8) % 256) <<< 8) ||| (v % 256) = v := by
  have h0 : (v % 256) = ((v >>> 0) % 256) <<< 0 := by simp
  apply Nat.eq_of_testBit_eq
  intro i
  rw [h0]
  simp only [Nat.testBit_or, testBit_slot, testBit_highslot]
  rcases Nat.lt_or_ge i 24 with hi | hi
  · cases hb : v.testBit i
    · simp [hb]
    · simp [hb]
      omega
  · have hv : v.testBit i = false :=
      Nat.testBit_lt_two_pow (lt_of_lt_of_le h
        (le_trans (by norm_num : (16777216 : Nat) ≤ 2 ^ 24)
          (Nat.pow_le_pow_right (by norm_num) hi)))
    simp [hv]

/-- Claim C7: writing `0xFFFFFFFF` as a little-endian triad and reading it
back at the write position yields `0x000FFFFF`; `ReadBigTriad` masks the
high nibble of its first (most significant) byte — its result is invariant
under `b0 &&& 0x0F` and always below `2^20` — while `WriteBigTriad` writes
the full low 24 bits of its argument with no nibble mask: its three bytes
are `v >>> 16`, `(v >>> 8) % 256`, `v % 256`, and reassembling them without
a mask recovers every `v < 2^24`. -/
theorem claim_C7_triad :
    ReadLittleTriad (WriteLittleTriad [] 4294967295) 0
      = (GoOut.ok 1048575, 3) ∧
    (∀ b0 b1 b2 : Nat,
      ReadBigTriad [b0, b1, b2] 0 = ReadBigTriad [b0 &&& 15, b1, b2] 0) ∧
    (∀ b0 b1 b2 : Nat,
      ∃ v, ReadBigTriad [b0, b1, b2] 0 = (GoOut.ok v, 3) ∧ v < 2 ^ 20) ∧
    (∀ (buffer : List Nat) (v : Nat), v < 16777216 →
      WriteBigTriad buffer v
          = buffer ++ [v >>> 16, (v >>> 8) % 256, v % 256] ∧
      ((v >>> 16) <<< 16) ||| (((v >>> 8) % 256) <<< 8) ||| (v % 256) = v) := by
  refine ⟨by decide, fun b0 b1 b2 => ?_, fun b0 b1 b2 => ?_, fun buffer v hv => ?_⟩
  · simp [ReadBigTriad, Read, Nat.and_assoc]
  · refine ⟨((b2 &&& 255) ||| (((b1 &&& 255) <<< 8) % 4294967296) |||
      (((b0 &&& 15) <<< 16) % 4294967296)), by simp [ReadBigTriad, Read], ?_⟩
    have e2 : b2 &&& 255 ≤ 255 := Nat.and_le_right
    have e1 : b1 &&& 255 ≤ 255 := Nat.and_le_right
    have e0 : b0 &&& 15 ≤ 15 := Nat.and_le_right
    have g2 : b2 &&& 255 < 2 ^ 20 := by norm_num; omega
    have g1 : ((b1 &&& 255) <<< 8) % 4294967296 < 2 ^ 20 := by
      rw [Nat.shiftLeft_eq]
      norm_num
      omega
    have g0 : ((b0 &&& 15) <<< 16) % 4294967296 < 2 ^ 20 := by
      rw [Nat.shiftLeft_eq]
      norm_num
      omega
    exact Nat.or_lt_two_pow (Nat.or_lt_two_pow g2 g1) g0
  · constructor
    · have hb0 : ((v >>> 16) % 256) &&& 255 = v >>> 16 := by
        rw [and255_eq_mod, Nat.shiftRight_eq_div_pow]
        norm_num
        omega
      have hb1 : ((v >>> 8) % 256) &&& 255 = (v >>> 8) % 256 := by
        rw [and255_eq_mod]
        omega
      have hb2 : (v &&& 255) % 256 = v % 256 := by
        rw [and255_eq_mod]
        omega
      unfold WriteBigTriad Write
      rw [hb0, hb1, hb2]
      simp [List.append_assoc]
    · exact assemble24big v hv

/-- Claim C7 witness: `WriteBigTriad` applied to `0xFFFFFF` — whose high
nibble is set — keeps all 24 bits, and `ReadBigTriad` on the bytes
`[255, 255, 255]` stays below `2^20`. -/
theorem claim_C7_triad_witness :
    WriteBigTriad [] 16777215
      = [] ++ [16777215 >>> 16, (16777215 >>> 8) % 256, 16777215 % 256] ∧
    ((16777215 >>> 16) <<< 16) ||| (((16777215 >>> 8) % 256) <<< 8) |||
      (16777215 % 256) = 16777215 ∧
    (∃ v, ReadBigTriad [255, 255, 255] 0 = (GoOut.ok v, 3) ∧ v < 2 ^ 20) :=
  ⟨(claim_C7_triad.2.2.2 [] 16777215 (by decide)).1,
    (claim_C7_triad.2.2.2 [] 16777215 (by decide)).2,
    claim_C7_triad.2.2.1 255 255 255⟩

/-- Reading one byte at a valid offset. -/
theorem Read_one (buffer : List Nat) (o : Nat) (h : o < buffer.length) :
    Read buffer (o : Int) 1 = (GoOut.ok [buffer.getD o 0], (o : Int) + 1) := by
  unfold Read
  rw [if_neg (by omega), if_neg (by omega)]
  have h1 : ((o : Int)).toNat = o := Int.toNat_natCast o
  have h2 : ((1 : Int)).toNat = 1 := rfl
  rw [h1, h2, List.drop_eq_getElem_cons h, List.take_succ_cons, List.take_zero,
    List.getD_eq_getElem _ _ h]

/-- If every byte the varint loop can reach has its continuation bit set, the
loop consumes its remaining group budget and fails with the too-big error
(the last byte is consumed regardless of its continuation bit, matching the
Go loop, whose `j > 5` test fires after the read). -/
theorem ruviLoop_tooBig (buffer : List Nat) :
    ∀ (fuel o result : Nat), 1 ≤ fuel →
      (∀ i, i + 1 < fuel → (buffer.getD (o + i) 0) &&& 0x80 ≠ 0) →
      o + fuel ≤ buffer.length →
      readUnsignedVarIntLoop buffer (o : Int) result fuel
        = (GoOut.err (GoErr.new ("Unsigned varint too big")),
            ((o + fuel : Nat) : Int)) := by
  intro fuel
  induction fuel with
  | zero => intro o result h1 _ _; exact absurd h1 (by omega)
  | succ f ih =>
    intro o result h1 hc hlen
    simp only [readUnsignedVarIntLoop]
    rw [Read_one buffer o (by omega)]
    rcases Nat.eq_zero_or_pos f with hf | hf
    · subst hf
      simp
    · have hcont : buffer.getD (o + 0) 0 &&& 0x80 ≠ 0 := hc 0 (by omega)
      rw [Nat.add_zero] at hcont
      simp only [List.getD_cons_zero, Nat.not_lt_zero, if_false]
      rw [if_neg (by omega : ¬ f = 0), if_pos hcont]
      have hoff : ((o : Int) + 1) = ((o + 1 : Nat) : Int) := by push_cast; ring
      rw [hoff, ih (o + 1) _ (by omega)
        (fun i hi => by
          have hx := hc (i + 1) (by omega)
          rwa [(by omega : o + (i + 1) = o + 1 + i)] at hx)
        (by omega)]
      have : o + 1 + f = o + (f + 1) := by omega
      rw [this]

/-- The 64-bit analogue of `ruviLoop_tooBig`. -/
theorem ruvlLoop_tooBig (buffer : List Nat) :
    ∀ (fuel o result : Nat), 1 ≤ fuel →
      (∀ i, i + 1 < fuel → (buffer.getD (o + i) 0) &&& 0x80 ≠ 0) →
      o + fuel ≤ buffer.length →
      readUnsignedVarLongLoop buffer (o : Int) result fuel
        = (GoOut.err (GoErr.new ("Unsigned var long too big")),
            ((o + fuel : Nat) : Int)) := by
  intro fuel
  induction fuel with
  | zero => intro o result h1 _ _; exact absurd h1 (by omega)
  | succ f ih =>
    intro o result h1 hc hlen
    simp only [readUnsignedVarLongLoop]
    rw [Read_one buffer o (by omega)]
    rcases Nat.eq_zero_or_pos f with hf | hf
    · subst hf
      simp
    · have hcont : buffer.getD (o + 0) 0 &&& 0x80 ≠ 0 := hc 0 (by omega)
      rw [Nat.add_zero] at hcont
      simp only [List.getD_cons_zero, Nat.not_lt_zero, if_false]
      rw [if_neg (by omega : ¬ f = 0), if_pos hcont]
      have hoff : ((o : Int) + 1) = ((o + 1 : Nat) : Int) := by push_cast; ring
      rw [hoff, ih (o + 1) _ (by omega)
        (fun i hi => by
          have hx := hc (i + 1) (by omega)
          rwa [(by omega : o + (i + 1) = o + 1 + i)] at hx)
        (by omega)]
      have : o + 1 + f = o + (f + 1) := by omega
      rw [this]

/-- Claim C4: `WriteUnsignedVarInt` encodes 0, 127, 128, `2^28 - 1` and
`2^32 - 1` to exactly 1, 1, 2, 4 and 5 bytes; `ReadUnsignedVarInt` fails
with the VarIntTooLarge error whenever a sixth base-128 group would be
consumed (the first five bytes at the offset carry the continuation bit and
a sixth byte exists — in particular on every 6-group sequence, whatever the
sixth byte holds), and `ReadUnsignedVarLong` fails analogously whenever an
eleventh group would be consumed. -/
theorem claim_C4_varint_bounds :
    (WriteUnsignedVarInt [] 0).length = 1 ∧
    (WriteUnsignedVarInt [] 127).length = 1 ∧
    (WriteUnsignedVarInt [] 128).length = 2 ∧
    (WriteUnsignedVarInt [] 268435455).length = 4 ∧
    (WriteUnsignedVarInt [] 4294967295).length = 5 ∧
    (∀ (buffer : List Nat) (offset : Nat),
      (∀ i, i < 5 → (buffer.getD (offset + i) 0) &&& 0x80 ≠ 0) →
      offset + 6 ≤ buffer.length →
      ReadUnsignedVarInt buffer (offset : Int)
        = (GoOut.err (GoErr.new ("Unsigned varint too big")),
            ((offset + 6 : Nat) : Int))) ∧
    (∀ (buffer : List Nat) (offset : Nat),
      (∀ i, i < 10 → (buffer.getD (offset + i) 0) &&& 0x80 ≠ 0) →
      offset + 11 ≤ buffer.length →
      ReadUnsignedVarLong buffer (offset : Int)
        = (GoOut.err (GoErr.new ("Unsigned var long too big")),
            ((offset + 11 : Nat) : Int))) := by
  refine ⟨by decide, by decide, by decide, by decide, by decide, ?_, ?_⟩
  · intro buffer offset hc hlen
    unfold ReadUnsignedVarInt
    exact ruviLoop_tooBig buffer 6 offset 0 (by omega)
      (fun i hi => hc i (by omega)) hlen
  · intro buffer offset hc hlen
    unfold ReadUnsignedVarLong
    exact ruvlLoop_tooBig buffer 11 offset 0 (by omega)
      (fun i hi => hc i (by omega)) hlen

/-- Claim C4 witness: the six-byte sequence `80 80 80 80 80 00` — five
continuation groups then a terminating group — is rejected as too big, and
likewise the eleven-byte long form. -/
theorem claim_C4_varint_bounds_witness :
    ReadUnsignedVarInt [0x80, 0x80, 0x80, 0x80, 0x80, 0x00] 0
      = (GoOut.err (GoErr.new ("Unsigned varint too big")), 6) ∧
    ReadUnsignedVarLong
        [0x80, 0x80, 0x80, 0x80, 0x80, 0x80, 0x80, 0x80, 0x80, 0x80, 0x00] 0
      = (GoOut.err (GoErr.new ("Unsigned var long too big")), 11) := by
  constructor
  · have h := claim_C4_varint_bounds.2.2.2.2.2.1
      [0x80, 0x80, 0x80, 0x80, 0x80, 0x00] 0 (by decide) (by decide)
    simpa using h
  · have h := claim_C4_varint_bounds.2.2.2.2.2.2
      [0x80, 0x80, 0x80, 0x80, 0x80, 0x80, 0x80, 0x80, 0x80, 0x80, 0x00] 0
      (by decide) (by decide)
    simpa using h

end BinUtils
